import Mathlib

/-!
# Verification of the Cronos X402 facilitator client

A shallow embedding of the facilitator client library:

* the runtime response-schema guards (`facilitator.guards.ts`),
* the two variants of the HTTP API layer shipped in the repository
  (one calls the guards on every 2xx body, the legacy one performs no
  schema validation),
* the network registry (`facilitator.registry.ts`),
* the payment-requirements builder (`payment.requirements.ts`),
* the payment-header codec and builder (`payment.header.ts`), including
  a model of JavaScript `JSON.stringify` on the header envelope, Base64,
  UTF-8, and ECMAScript `StringToBigInt`,
* the `Facilitator` client class (`client/index.ts`).

JavaScript values crossing the trust boundary are modelled by the
inductive `JsVal`; `undefined` (an absent object field) is modelled by
`Option`.  Fallible code returns `Except String` mirroring `throw new
Error(...)`.  Machine integers do not occur: all amounts are JavaScript
`BigInt`, modelled by `Int`/`Nat`.
-/

namespace X402

/-! ## JavaScript values

JSON values as produced by `JSON.parse`: `null`, booleans, finite
numbers, strings, arrays and plain-object records.  (`JSON.parse` never
produces `undefined`, `NaN` or `±Infinity`, so numbers carry an `Int`;
the only numbers the guards inspect are version numbers and block
numbers.)  Object fields keep their textual order; a duplicated key in
JSON source makes the *last* occurrence win, which `jsGet` mirrors. -/

inductive JsVal where
  | null : JsVal
  | bool (b : Bool) : JsVal
  | num (n : Int) : JsVal
  | str (s : String) : JsVal
  | arr (elems : List JsVal) : JsVal
  | obj (fields : List (String × JsVal)) : JsVal
deriving Repr

/-- Property access `record.key` on a JS object: `none` models
`undefined` (absent field); with duplicate keys the last wins. -/
def jsGet : List (String × JsVal) → String → Option JsVal
  | [], _ => none
  | (k, v) :: rest, key =>
    match jsGet rest key with
    | some w => some w
    | none => if k = key then some v else none

/-! ## Response schema guards (`facilitator.guards.ts`) -/

/-- `isRecord`: an object that is not `null` and not an array. -/
def isRecord : JsVal → Bool
  | .obj _ => true
  | _ => false

/-- `isString`: runtime guard for strings. -/
def isString : JsVal → Bool
  | .str _ => true
  | _ => false

/-- `isNumber`: runtime guard for finite numbers (every `JsVal.num` is
finite, see `JsVal`). -/
def isNumber : JsVal → Bool
  | .num _ => true
  | _ => false

/-- `isBoolean`: runtime guard for booleans. -/
def isBoolean : JsVal → Bool
  | .bool _ => true
  | _ => false

/-- `isNull`: runtime guard for `null`. -/
def isNull : JsVal → Bool
  | .null => true
  | _ => false

/-- Apply a guard to a possibly-`undefined` value; `undefined` fails.
This is what a bare `guard(v.field)` does in the TS source. -/
def optApp (g : JsVal → Bool) : Option JsVal → Bool
  | none => false
  | some v => g v

/-- `isOptional(v, guard)`: `undefined` is accepted, otherwise the
guard must accept. -/
def isOptional (o : Option JsVal) (g : JsVal → Bool) : Bool :=
  match o with
  | none => true
  | some v => g v

/-- `isX402Kind`: record with a finite-number `x402Version`, a string
`scheme` and a string `network` (note: `scheme` and `network` are only
checked to be strings). -/
def isX402Kind : JsVal → Bool
  | .obj fields =>
    optApp isNumber (jsGet fields "x402Version") &&
    optApp isString (jsGet fields "scheme") &&
    optApp isString (jsGet fields "network")
  | _ => false

/-- `assertX402SupportedResponse`: record whose `kinds` is an array of
`X402Kind`s. -/
def assertX402SupportedResponse : JsVal → Except String Unit
  | .obj fields =>
    match jsGet fields "kinds" with
    | some (.arr kinds) =>
      if kinds.all isX402Kind then .ok ()
      else .error "X402SupportedResponse.kinds: invalid items"
    | _ => .error "X402SupportedResponse.kinds: not an array"
  | _ => .error "X402SupportedResponse: not an object"

/-- `assertX402VerifyResponse`: record with boolean `isValid` and
`invalidReason` a string or `null` (an absent `invalidReason` fails the
`isString(ir) || isNull(ir)` test, exactly as `undefined` does in the
source). -/
def assertX402VerifyResponse : JsVal → Except String Unit
  | .obj fields =>
    if !optApp isBoolean (jsGet fields "isValid") then
      .error "X402VerifyResponse.isValid: not boolean"
    else
      if !(optApp isString (jsGet fields "invalidReason") ||
          optApp isNull (jsGet fields "invalidReason")) then
        .error "X402VerifyResponse.invalidReason: not string|null"
      else .ok ()
  | _ => .error "X402VerifyResponse: not an object"

/-- `isX402EventType`: hard check against the two event literals. -/
def isX402EventType : JsVal → Bool
  | .str s => s = "payment.settled" || s = "payment.failed"
  | _ => false

/-- `assertX402SettleResponse`: required `x402Version` (number),
`event` (exact literal), `network` and `timestamp` (strings); optional
`txHash`, `from`, `to`, `value`, `error` (strings) and `blockNumber`
(number). -/
def assertX402SettleResponse : JsVal → Except String Unit
  | .obj fields =>
    if !optApp isNumber (jsGet fields "x402Version") then
      .error "X402SettleResponse.x402Version: not number"
    else if !optApp isX402EventType (jsGet fields "event") then
      .error "X402SettleResponse.event: invalid"
    else if !optApp isString (jsGet fields "network") then
      .error "X402SettleResponse.network: not string"
    else if !optApp isString (jsGet fields "timestamp") then
      .error "X402SettleResponse.timestamp: not string"
    else if !isOptional (jsGet fields "txHash") isString then
      .error "X402SettleResponse.txHash: not string|undefined"
    else if !isOptional (jsGet fields "from") isString then
      .error "X402SettleResponse.from: not string|undefined"
    else if !isOptional (jsGet fields "to") isString then
      .error "X402SettleResponse.to: not string|undefined"
    else if !isOptional (jsGet fields "value") isString then
      .error "X402SettleResponse.value: not string|undefined"
    else if !isOptional (jsGet fields "blockNumber") isNumber then
      .error "X402SettleResponse.blockNumber: not number|undefined"
    else if !isOptional (jsGet fields "error") isString then
      .error "X402SettleResponse.error: not string|undefined"
    else .ok ()
  | _ => .error "X402SettleResponse: not an object"

/-! ## HTTP API layer

The repository ships two modules exporting `getSupported`,
`verifyPayment` and `settlePayment`.  One validates every 2xx body with
the schema guards before returning it (`ApiGuarded` below); the legacy
one returns the parsed body of any 2xx response as-is (`ApiUnguarded`).

An HTTP exchange is modelled by its observable outcome: the status code
and the result of `text()` + `JSON.parse` on the body.  The
`JSON.stringify(json)` suffix the source appends to its error messages
is not reproduced; the status is. -/

/-- Outcome of reading and JSON-parsing a response body. -/
inductive BodyText where
  | empty : BodyText
  | json (v : JsVal) : BodyText
  | invalid (raw : String) : BodyText
deriving Repr

/-- Observable data of a `fetch` response. -/
structure HttpResponse where
  status : Nat
  body : BodyText
deriving Repr

/-- `Response.ok`: status in the 2xx range. -/
def resOk (r : HttpResponse) : Bool :=
  200 ≤ r.status && r.status < 300

/-- `readJsonOrRaw`: empty body gives `null`, unparsable text is wrapped
as `{raw: text}`. -/
def readJsonOrRaw (r : HttpResponse) : JsVal :=
  match r.body with
  | .empty => .null
  | .json v => v
  | .invalid raw => .obj [("raw", .str raw)]

namespace ApiGuarded

/-- Guarded `getSupported`: non-2xx throws; a 2xx body is returned only
after `assertX402SupportedResponse` accepts it. -/
def getSupported (r : HttpResponse) : Except String JsVal :=
  let payload := readJsonOrRaw r
  if !resOk r then .error ("getSupported failed: " ++ toString r.status)
  else (assertX402SupportedResponse payload).map fun _ => payload

/-- Guarded `verifyPayment`: non-2xx throws; a 2xx body is returned only
after `assertX402VerifyResponse` accepts it. -/
def verifyPayment (r : HttpResponse) : Except String JsVal :=
  let payload := readJsonOrRaw r
  if !resOk r then .error ("Verify failed: " ++ toString r.status)
  else (assertX402VerifyResponse payload).map fun _ => payload

/-- Guarded `settlePayment`: non-2xx throws; a 2xx body is returned only
after `assertX402SettleResponse` accepts it. -/
def settlePayment (r : HttpResponse) : Except String JsVal :=
  let payload := readJsonOrRaw r
  if !resOk r then .error ("Settle failed: " ++ toString r.status)
  else (assertX402SettleResponse payload).map fun _ => payload

end ApiGuarded

namespace ApiUnguarded

/-- The legacy module initialises `json = {}`, so an empty body becomes
an empty record rather than `null`. -/
def parsedBody (r : HttpResponse) : JsVal :=
  match r.body with
  | .empty => .obj []
  | .json v => v
  | .invalid raw => .obj [("raw", .str raw)]

/-- Legacy `getSupported`: non-2xx throws; any 2xx body is returned
without schema validation. -/
def getSupported (r : HttpResponse) : Except String JsVal :=
  let json := parsedBody r
  if !resOk r then .error ("getSupported failed: " ++ toString r.status)
  else .ok json

/-- Legacy `verifyPayment`: non-2xx throws; any 2xx body is returned
without schema validation. -/
def verifyPayment (r : HttpResponse) : Except String JsVal :=
  let json := parsedBody r
  if !resOk r then .error ("Verify failed: " ++ toString r.status)
  else .ok json

/-- Legacy `settlePayment`: non-2xx throws; any 2xx body is returned
without schema validation. -/
def settlePayment (r : HttpResponse) : Except String JsVal :=
  let json := parsedBody r
  if !resOk r then .error ("Settle failed: " ++ toString r.status)
  else .ok json

end ApiUnguarded

/-! ## Decimal representation of integers

`natToChars`/`intToChars` model how JavaScript prints an integer: the
decimal digits of `BigInt.prototype.toString` and of `JSON.stringify`
on an integral `number`. -/

/-- The character for the decimal digit `n < 10`. -/
def digitChar (n : Nat) : Char := Char.ofNat (48 + n)

/-- Lowercase hexadecimal digit for `n < 16` (as used by the `\u00xx`
escapes of `JSON.stringify`). -/
def hexChar (n : Nat) : Char :=
  if n < 10 then Char.ofNat (48 + n) else Char.ofNat (87 + n)

/-- Digit accumulator: peels decimal digits from the right.  The fuel
only drives structural recursion; `n + 1` always suffices. -/
def natToCharsAux : Nat → Nat → List Char → List Char
  | 0, _, acc => acc
  | fuel + 1, n, acc =>
    if n < 10 then digitChar n :: acc
    else natToCharsAux fuel (n / 10) (digitChar (n % 10) :: acc)

/-- Decimal digits of a natural number, most significant first. -/
def natToChars (n : Nat) : List Char := natToCharsAux (n + 1) n []

/-- Decimal representation of a natural number. -/
def natRepr (n : Nat) : String := String.mk (natToChars n)

/-- Decimal digits of an integer, `'-'`-prefixed when negative. -/
def intToChars (i : Int) : List Char :=
  if i < 0 then '-' :: natToChars i.natAbs else natToChars i.toNat

/-- Decimal representation of an integer. -/
def intRepr (i : Int) : String := String.mk (intToChars i)

/-! ## JSON string escaping (`JSON.stringify` on strings)

`JSON.stringify` escapes `"`, `\`, and the C0 control characters
(`\b \t \n \f \r`, otherwise `\u00xx` with lowercase hex); every other
Unicode scalar value passes through unescaped.  (Lone surrogates cannot
occur in a Lean `Char`.) -/

/-- Escape sequence emitted for one character. -/
def escChar (c : Char) : List Char :=
  if c = '"' then ['\\', '"']
  else if c = '\\' then ['\\', '\\']
  else if c.toNat = 8 then ['\\', 'b']
  else if c.toNat = 9 then ['\\', 't']
  else if c.toNat = 10 then ['\\', 'n']
  else if c.toNat = 12 then ['\\', 'f']
  else if c.toNat = 13 then ['\\', 'r']
  else if c.toNat < 32 then
    ['\\', 'u', '0', '0', hexChar (c.toNat / 16), hexChar (c.toNat % 16)]
  else [c]

/-- Escape a character list. -/
def escChars : List Char → List Char
  | [] => []
  | c :: cs => escChar c ++ escChars cs

/-- The body of a JSON string literal for `s` (without the delimiting
quotes). -/
def escString (s : String) : String := String.mk (escChars s.data)

/-! ## Payment header data model (`facilitator.interface.ts`) -/

/-- `Eip3009Payload`: the signed `TransferWithAuthorization` message.
The TS fields `from` and `to` are spelled
`fromAddress`/`toAddress` (`from` and `to` are Lean keywords). -/
structure Eip3009Payload where
  fromAddress : String
  toAddress : String
  value : String
  validAfter : Int
  validBefore : Int
  nonce : String
  signature : String
  asset : String
deriving Repr, DecidableEq

/-- `Eip3009PaymentHeader`: the versioned envelope.  The TS types pin
`scheme` to the literal `"exact"` and `network` to the two registry
keys; serialization does not depend on that, so both stay `String`
here. -/
structure Eip3009PaymentHeader where
  x402Version : Int
  scheme : String
  network : String
  payload : Eip3009Payload
deriving Repr, DecidableEq

/-- `buildEip3009Header`: wrap a payload with `x402Version = 1` and
`scheme = Scheme.Exact = "exact"`. -/
def buildEip3009Header (payload : Eip3009Payload) (network : String) :
    Eip3009PaymentHeader :=
  { x402Version := 1, scheme := "exact", network := network, payload := payload }

/-! ## `JSON.stringify` on the header envelope

JavaScript object keys serialize in insertion order, which for these
object literals is declaration order: `x402Version`, `scheme`,
`network`, `payload`, and inside the payload `from`, `to`, `value`,
`validAfter`, `validBefore`, `nonce`, `signature`, `asset`. -/

/-- `JSON.stringify` of the payload object. -/
def payloadJson (p : Eip3009Payload) : String :=
  "\x7b\"from\":\"" ++ escString p.fromAddress ++
  "\",\"to\":\"" ++ escString p.toAddress ++
  "\",\"value\":\"" ++ escString p.value ++
  "\",\"validAfter\":" ++ intRepr p.validAfter ++
  ",\"validBefore\":" ++ intRepr p.validBefore ++
  ",\"nonce\":\"" ++ escString p.nonce ++
  "\",\"signature\":\"" ++ escString p.signature ++
  "\",\"asset\":\"" ++ escString p.asset ++ "\"\x7d"

/-- `JSON.stringify` of the header envelope. -/
def headerJson (h : Eip3009PaymentHeader) : String :=
  "\x7b\"x402Version\":" ++ intRepr h.x402Version ++
  ",\"scheme\":\"" ++ escString h.scheme ++
  "\",\"network\":\"" ++ escString h.network ++
  "\",\"payload\":" ++ payloadJson h.payload ++ "\x7d"

/-! ## UTF-8 -/

/-- UTF-8 bytes of one Unicode scalar value. -/
def utf8Bytes (c : Char) : List Nat :=
  if c.toNat < 0x80 then [c.toNat]
  else if c.toNat < 0x800 then [0xC0 + c.toNat / 64, 0x80 + c.toNat % 64]
  else if c.toNat < 0x10000 then
    [0xE0 + c.toNat / 4096, 0x80 + c.toNat / 64 % 64, 0x80 + c.toNat % 64]
  else
    [0xF0 + c.toNat / 262144, 0x80 + c.toNat / 4096 % 64,
     0x80 + c.toNat / 64 % 64, 0x80 + c.toNat % 64]

/-- UTF-8 encoding of a character list. -/
def utf8Encode : List Char → List Nat
  | [] => []
  | c :: cs => utf8Bytes c ++ utf8Encode cs

/-- A UTF-8 continuation byte. -/
def isCont (b : Nat) : Bool := 0x80 ≤ b && b < 0xC0

/-- Decode one code point from the front of a UTF-8 byte stream
(`none` on malformed input). -/
def utf8DecodeOne : List Nat → Option (Nat × List Nat)
  | [] => none
  | b :: bs =>
    if b < 0x80 then some (b, bs)
    else if b < 0xC0 then none
    else if b < 0xE0 then
      match bs with
      | b1 :: bs1 =>
        if isCont b1 then some ((b - 0xC0) * 64 + (b1 - 0x80), bs1) else none
      | [] => none
    else if b < 0xF0 then
      match bs with
      | b1 :: b2 :: bs2 =>
        if isCont b1 && isCont b2 then
          some ((b - 0xE0) * 4096 + (b1 - 0x80) * 64 + (b2 - 0x80), bs2)
        else none
      | _ => none
    else if b < 0xF8 then
      match bs with
      | b1 :: b2 :: b3 :: bs3 =>
        if isCont b1 && isCont b2 && isCont b3 then
          some ((b - 0xF0) * 262144 + (b1 - 0x80) * 4096 +
            (b2 - 0x80) * 64 + (b3 - 0x80), bs3)
        else none
      | _ => none
    else none

/-- Decode a UTF-8 byte stream one code point at a time.  Each step
consumes at least one byte, so a fuel of the stream length always
suffices; `utf8Decode` below supplies it. -/
def utf8DecodeLoop : Nat → List Nat → Option (List Char)
  | _, [] => some []
  | 0, _ :: _ => none
  | fuel + 1, b :: bs =>
    match utf8DecodeOne (b :: bs) with
    | some (v, rest) => (utf8DecodeLoop fuel rest).map (Char.ofNat v :: ·)
    | none => none

/-- UTF-8 decoding (`none` on malformed input). -/
def utf8Decode (l : List Nat) : Option (List Char) :=
  utf8DecodeLoop l.length l

/-! ## Base64 (`btoa`/`Buffer.toString('base64')` and its inverse) -/

/-- The Base64 alphabet character for a 6-bit value `n < 64`. -/
def b64Char (n : Nat) : Char :=
  if n < 26 then Char.ofNat (65 + n)
  else if n < 52 then Char.ofNat (97 + n - 26)
  else if n < 62 then Char.ofNat (48 + n - 52)
  else if n = 62 then '+'
  else '/'

/-- The 6-bit value of a Base64 alphabet character. -/
def b64Val (c : Char) : Option Nat :=
  if 65 ≤ c.toNat && c.toNat ≤ 90 then some (c.toNat - 65)
  else if 97 ≤ c.toNat && c.toNat ≤ 122 then some (c.toNat - 97 + 26)
  else if 48 ≤ c.toNat && c.toNat ≤ 57 then some (c.toNat - 48 + 52)
  else if c = '+' then some 62
  else if c = '/' then some 63
  else none

/-- Base64-encode a byte list (standard alphabet, `=`-padded). -/
def b64Encode : List Nat → List Char
  | [] => []
  | [a] => [b64Char (a / 4), b64Char (a % 4 * 16), '=', '=']
  | [a, b] => [b64Char (a / 4), b64Char (a % 4 * 16 + b / 16), b64Char (b % 16 * 4), '=']
  | a :: b :: c :: rest =>
    [b64Char (a / 4), b64Char (a % 4 * 16 + b / 16),
     b64Char (b % 16 * 4 + c / 64), b64Char (c % 64)] ++ b64Encode rest

/-- Base64-decode (`none` on input that is not well-formed Base64). -/
def b64Decode : List Char → Option (List Nat)
  | [] => some []
  | c0 :: c1 :: c2 :: c3 :: rest =>
    match b64Val c0, b64Val c1 with
    | some v0, some v1 =>
      if c2 = '=' then
        if c3 = '=' && rest.isEmpty then some [v0 * 4 + v1 / 16] else none
      else
        match b64Val c2 with
        | some v2 =>
          if c3 = '=' then
            if rest.isEmpty then some [v0 * 4 + v1 / 16, v1 % 16 * 16 + v2 / 4]
            else none
          else
            match b64Val c3 with
            | some v3 =>
              (b64Decode rest).map fun tail =>
                (v0 * 4 + v1 / 16) :: (v1 % 16 * 16 + v2 / 4) ::
                (v2 % 4 * 64 + v3) :: tail
            | none => none
        | none => none
    | _, _ => none
  | _ => none

/-! ## Header codec (`payment.header.ts`) -/

/-- `encodePaymentHeader`: `JSON.stringify` then Base64 over the UTF-8
bytes. -/
def encodePaymentHeader (header : Eip3009PaymentHeader) : String :=
  String.mk (b64Encode (utf8Encode (headerJson header).data))

/-- `decodePaymentHeader`: reverse the Base64 transport encoding only,
recovering the JSON text without parsing it.  The `none` cases are the
failure modes of `atob`/UTF-8 decoding on garbage input. -/
def decodePaymentHeader (base64String : String) : Option String :=
  (b64Decode base64String.data).bind fun bytes =>
    (utf8Decode bytes).map String.mk

/-! ## Re-parsing the canonical header JSON (`JSON.parse`)

`decodePaymentHeader` intentionally returns text; callers re-parse it
with `JSON.parse`.  The parser below follows the JSON grammar along the
canonical serialization produced by `headerJson`: literal punctuation,
string literals with the full escape repertoire of `JSON.stringify`,
and decimal integers. -/

/-- Consume an expected literal character sequence. -/
def dropLit : List Char → List Char → Option (List Char)
  | [], rest => some rest
  | _ :: _, [] => none
  | p :: ps, c :: cs => if c = p then dropLit ps cs else none

/-- Decimal digit test. -/
def isDigitCh (c : Char) : Bool := 48 ≤ c.toNat && c.toNat ≤ 57

/-- Hexadecimal digit test. -/
def isHexCh (c : Char) : Bool :=
  isDigitCh c || (97 ≤ c.toNat && c.toNat ≤ 102) || (65 ≤ c.toNat && c.toNat ≤ 70)

/-- Numeric value of a hexadecimal digit. -/
def hexVal (c : Char) : Nat :=
  if c.toNat ≤ 57 then c.toNat - 48
  else if c.toNat ≤ 70 then c.toNat - 55
  else c.toNat - 87

/-- Parse the remainder of a JSON string literal (the opening quote
already consumed), returning its characters and the rest of the
input. -/
def parseStrTail : List Char → Option (List Char × List Char)
  | [] => none
  | c :: cs =>
    if c = '"' then some ([], cs)
    else if c = '\\' then
      match cs with
      | [] => none
      | e :: cs2 =>
        if e = '"' then (parseStrTail cs2).map fun (s, r) => ('"' :: s, r)
        else if e = '\\' then (parseStrTail cs2).map fun (s, r) => ('\\' :: s, r)
        else if e = '/' then (parseStrTail cs2).map fun (s, r) => ('/' :: s, r)
        else if e = 'b' then (parseStrTail cs2).map fun (s, r) => (Char.ofNat 8 :: s, r)
        else if e = 't' then (parseStrTail cs2).map fun (s, r) => (Char.ofNat 9 :: s, r)
        else if e = 'n' then (parseStrTail cs2).map fun (s, r) => (Char.ofNat 10 :: s, r)
        else if e = 'f' then (parseStrTail cs2).map fun (s, r) => (Char.ofNat 12 :: s, r)
        else if e = 'r' then (parseStrTail cs2).map fun (s, r) => (Char.ofNat 13 :: s, r)
        else if e = 'u' then
          match cs2 with
          | h1 :: h2 :: h3 :: h4 :: cs6 =>
            if isHexCh h1 && isHexCh h2 && isHexCh h3 && isHexCh h4 then
              (parseStrTail cs6).map fun (s, r) =>
                (Char.ofNat (hexVal h1 * 4096 + hexVal h2 * 256 +
                  hexVal h3 * 16 + hexVal h4) :: s, r)
            else none
          | _ => none
        else none
    else (parseStrTail cs).map fun (s, r) => (c :: s, r)

/-- Fold decimal digits into an accumulator, maximal munch. -/
def parseDigits (acc : Nat) : List Char → Nat × List Char
  | [] => (acc, [])
  | c :: cs =>
    if isDigitCh c then parseDigits (acc * 10 + (c.toNat - 48)) cs
    else (acc, c :: cs)

/-- Parse a nonempty run of decimal digits. -/
def parseNat : List Char → Option (Nat × List Char)
  | [] => none
  | c :: cs =>
    if isDigitCh c then some (parseDigits 0 (c :: cs)) else none

/-- Whether the input continues with a decimal digit (used to state
where a maximal digit run stops). -/
def headIsDigit : List Char → Bool
  | [] => false
  | c :: _ => isDigitCh c

/-- Parse an optionally `'-'`-signed decimal integer. -/
def parseInt (cs : List Char) : Option (Int × List Char) :=
  if cs.head? = some '-' then (parseNat cs.tail).map fun p => (-(p.1 : Int), p.2)
  else (parseNat cs).map fun p => ((p.1 : Int), p.2)

/-- Consume a literal key sequence ending in an opening quote, then the
string literal that follows. -/
def parseKeyStr (pat : String) (cs : List Char) : Option (List Char × List Char) :=
  (dropLit pat.data cs).bind parseStrTail

/-- Consume a literal key sequence, then the integer that follows. -/
def parseKeyInt (pat : String) (cs : List Char) : Option (Int × List Char) :=
  (dropLit pat.data cs).bind parseInt

/-- Parse the serialized payload object (all eight fields, in canonical
order), returning it and the rest of the input. -/
def parsePayloadTail (cs : List Char) : Option (Eip3009Payload × List Char) :=
  (parseKeyStr "\x7b\"from\":\"" cs).bind fun fromF =>
  (parseKeyStr ",\"to\":\"" fromF.2).bind fun toF =>
  (parseKeyStr ",\"value\":\"" toF.2).bind fun valF =>
  (parseKeyInt ",\"validAfter\":" valF.2).bind fun va =>
  (parseKeyInt ",\"validBefore\":" va.2).bind fun vb =>
  (parseKeyStr ",\"nonce\":\"" vb.2).bind fun nonceF =>
  (parseKeyStr ",\"signature\":\"" nonceF.2).bind fun sigF =>
  (parseKeyStr ",\"asset\":\"" sigF.2).bind fun assetF =>
  some ({ fromAddress := String.mk fromF.1, toAddress := String.mk toF.1,
          value := String.mk valF.1, validAfter := va.1, validBefore := vb.1,
          nonce := String.mk nonceF.1, signature := String.mk sigF.1,
          asset := String.mk assetF.1 }, assetF.2)

/-- Parse the canonical serialization of an `Eip3009PaymentHeader`,
checking every literal of the JSON envelope and consuming the entire
input. -/
def parsePaymentHeader (s : String) : Option Eip3009PaymentHeader :=
  (parseKeyInt "\x7b\"x402Version\":" s.data).bind fun ver =>
  (parseKeyStr ",\"scheme\":\"" ver.2).bind fun scheme =>
  (parseKeyStr ",\"network\":\"" scheme.2).bind fun net =>
  (dropLit ",\"payload\":".data net.2).bind fun r6 =>
  (parsePayloadTail r6).bind fun pl =>
  (dropLit "\x7d\x7d".data pl.2).bind fun r22 =>
  if r22 = [] then
    some { x402Version := ver.1, scheme := String.mk scheme.1,
           network := String.mk net.1, payload := pl.1 }
  else none

/-! ## ECMAScript `StringToBigInt` (the `BigInt(value)` conversion)

`BigInt(string)` trims whitespace; an empty remainder is `0n`; the rest
must be a `StrNumericLiteral` without decimal point or exponent: either
an optionally signed run of decimal digits, or an unsigned
`0x`/`0o`/`0b` radix literal.  Everything else throws a
`SyntaxError`. -/

/-- ECMAScript whitespace and line terminators (`TrimString`). -/
def isWS (c : Char) : Bool :=
  let v := c.toNat
  (9 ≤ v && v ≤ 13) || v = 32 || v = 0xA0 || v = 0x1680 ||
  (0x2000 ≤ v && v ≤ 0x200A) || v = 0x2028 || v = 0x2029 ||
  v = 0x202F || v = 0x205F || v = 0x3000 || v = 0xFEFF

/-- Octal digit test. -/
def isOctCh (c : Char) : Bool := 48 ≤ c.toNat && c.toNat ≤ 55

/-- Binary digit test. -/
def isBinCh (c : Char) : Bool := c.toNat = 48 || c.toNat = 49

/-- Trim ECMAScript whitespace from both ends. -/
def jsTrim (cs : List Char) : List Char :=
  ((cs.dropWhile isWS).reverse.dropWhile isWS).reverse

/-- Value of a digit run in the given radix. -/
def radixVal (radix : Nat) (dv : Char → Nat) (cs : List Char) : Nat :=
  cs.foldl (fun a c => a * radix + dv c) 0

/-- Value of a decimal digit run. -/
def digitsVal (cs : List Char) : Nat := radixVal 10 (fun c => c.toNat - 48) cs

/-- An unsigned decimal digit run (used by the sign-free and signed
decimal branches). -/
def decimalCase (t : List Char) : Option Int :=
  if t.all isDigitCh then some ((digitsVal t : Nat) : Int) else none

/-- `StringToBigInt`: the exact acceptance and value semantics of
`BigInt(value)` on a string. -/
def stringToBigInt (s : String) : Option Int :=
  match jsTrim s.data with
  | [] => some 0
  | '0' :: x :: rest =>
    if x = 'x' || x = 'X' then
      if !rest.isEmpty && rest.all isHexCh then
        some ((radixVal 16 hexVal rest : Nat) : Int)
      else none
    else if x = 'o' || x = 'O' then
      if !rest.isEmpty && rest.all isOctCh then
        some ((radixVal 8 (fun c => c.toNat - 48) rest : Nat) : Int)
      else none
    else if x = 'b' || x = 'B' then
      if !rest.isEmpty && rest.all isBinCh then
        some ((radixVal 2 (fun c => c.toNat - 48) rest : Nat) : Int)
      else none
    else decimalCase ('0' :: x :: rest)
  | '+' :: rest =>
    if !rest.isEmpty && rest.all isDigitCh then some ((digitsVal rest : Nat) : Int)
    else none
  | '-' :: rest =>
    if !rest.isEmpty && rest.all isDigitCh then some (-((digitsVal rest : Nat) : Int))
    else none
  | t => decimalCase t

/-! ## Network registry (`facilitator.registry.ts`)

Both registry entries share the same `headerGenerator` (the function
`generateCronosPaymentHeader` itself), so that field carries no
information and is not modelled as data. -/

/-- A registry entry: default ERC-20 asset contract and RPC endpoint. -/
structure NetworkConfig where
  asset : String
  rpcUrl : String
deriving Repr, DecidableEq

/-- `NETWORK_REGISTRY`: the frozen two-entry table, exposed as the
lookup JavaScript's `NETWORK_REGISTRY[network]` performs (`none` models
`undefined` for an unknown key). -/
def NETWORK_REGISTRY (network : String) : Option NetworkConfig :=
  if network = "cronos-mainnet" then
    some { asset := "0xf951eC28187D9E5Ca673Da8FE6757E6f0Be5F77C",
           rpcUrl := "https://evm.cronos.org" }
  else if network = "cronos-testnet" then
    some { asset := "0xc01efAaF7C5C61bEbFAeb358E1161b537b8bC0e0",
           rpcUrl := "https://evm-t3.cronos.org" }
  else none

/-- `EIP712_DOMAIN_BY_NETWORK`: signing-domain name/version per
network. -/
def EIP712_DOMAIN_BY_NETWORK (network : String) : Option (String × String) :=
  if network = "cronos-mainnet" then some ("USDCe", "2")
  else if network = "cronos-testnet" then some ("USDCe", "1")
  else none

/-! ## Payment requirements builder (`payment.requirements.ts`) -/

/-- `PaymentRequirements` (from `facilitator.interface.ts`); `extra`
and `outputSchema` are opaque pass-through values, kept as `JsVal`. -/
structure PaymentRequirements where
  scheme : String
  network : String
  payTo : String
  asset : String
  description : String
  mimeType : String
  maxAmountRequired : String
  maxTimeoutSeconds : Int
  resource : Option String
  extra : Option JsVal
  outputSchema : Option JsVal
deriving Repr

/-- The options record of `generatePaymentRequirements`; `none` models
an omitted optional field. -/
structure RequirementsOptions where
  network : String
  payTo : String
  asset : Option String := none
  description : Option String := none
  maxAmountRequired : Option String := none
  mimeType : Option String := none
  maxTimeoutSeconds : Option Int := none
  resource : Option String := none
  extra : Option JsVal := none
  outputSchema : Option JsVal := none

/-- `generatePaymentRequirements`: destructure with defaults, fail
closed on an unknown network, and assemble the requirements with
`asset ?? config.asset`. -/
def generatePaymentRequirements (options : RequirementsOptions) :
    Except String PaymentRequirements :=
  let description := options.description.getD "X402 payment request"
  let maxAmountRequired := options.maxAmountRequired.getD "1000"
  let mimeType := options.mimeType.getD "application/json"
  let maxTimeoutSeconds := options.maxTimeoutSeconds.getD 300
  match NETWORK_REGISTRY options.network with
  | none => .error ("Unsupported network: " ++ options.network)
  | some config =>
    .ok { scheme := "exact", network := options.network,
          payTo := options.payTo, asset := options.asset.getD config.asset,
          description := description, mimeType := mimeType,
          maxAmountRequired := maxAmountRequired,
          maxTimeoutSeconds := maxTimeoutSeconds,
          resource := options.resource, extra := options.extra,
          outputSchema := options.outputSchema }

/-! ## Header builder (`generateCronosPaymentHeader`)

The builder's interactions with the outside world are the RPC call
`provider.getNetwork()` (a network round-trip), the signer-capability
calls `getAddress()` and `signTypedData(...)`, and local randomness.
The environment `SignerEnv` fixes their results; the builder returns
the ordered list of external calls it performed together with its
result, so temporal claims about "before any network call" are claims
about the returned trace.

The EIP-712 domain (`EIP712_DOMAIN_BY_NETWORK` name/version, chain id,
verifying contract) and the six-field type schema are consumed only by
the opaque `signTypedData` capability, whose result the environment
supplies; they do not reach the emitted payload. -/

/-- External calls the builder can make, in order. -/
inductive HdrEvent where
  | chainIdCall : HdrEvent
  | resolveAddressCall : HdrEvent
  | signCall : HdrEvent
deriving Repr, DecidableEq

/-- Results of the external capabilities consumed by the builder. -/
structure SignerEnv where
  chainId : Int
  signerAddress : Option String
  now : Int
  nonce : String
  signature : String
deriving Repr

/-- The builder's parameter record (besides the signer). -/
structure HeaderParams where
  network : String
  toAddress : String
  value : String
  asset : Option String := none
  validAfter : Option Int := none
  validBefore : Option Int := none
deriving Repr

/-- `generateCronosPaymentHeader` up to (but not including) the final
Base64 encoding: registry lookup, `provider.getNetwork()`,
`getAddress()`, validity window, nonce, asset resolution, `BigInt`
conversion, signing, payload and envelope assembly. -/
def generateCronosHeaderObj (env : SignerEnv) (params : HeaderParams) :
    List HdrEvent × Except String Eip3009PaymentHeader :=
  match NETWORK_REGISTRY params.network with
  | none => ([], .error ("Unsupported network: " ++ params.network))
  | some config =>
    -- const chain = await provider.getNetwork(); const from = await signer.getAddress?.()
    let fromVal := env.signerAddress.getD ""
    if fromVal = "" then
      ([.chainIdCall, .resolveAddressCall], .error "Unable to resolve signer address")
    else
      let computedValidAfter := params.validAfter.getD 0
      let computedValidBefore := params.validBefore.getD (env.now + 3600)
      let nonce := env.nonce
      let tokenAddress := params.asset.getD config.asset
      if tokenAddress = "" then
        ([.chainIdCall, .resolveAddressCall],
         .error "Token asset address is required (no default configured)")
      else
        match stringToBigInt params.value with
        | none =>
          ([.chainIdCall, .resolveAddressCall],
           .error ("Cannot convert " ++ params.value ++ " to a BigInt"))
        | some valueBigInt =>
          let payload : Eip3009Payload :=
            { fromAddress := fromVal, toAddress := params.toAddress,
              value := intRepr valueBigInt,
              validAfter := computedValidAfter,
              validBefore := computedValidBefore, nonce := nonce,
              signature := env.signature, asset := tokenAddress }
          ([.chainIdCall, .resolveAddressCall, .signCall],
           .ok (buildEip3009Header payload params.network))

/-- `generateCronosPaymentHeader`: the builder composed with the
Base64 encoding of the envelope. -/
def generateCronosPaymentHeader (env : SignerEnv) (params : HeaderParams) :
    List HdrEvent × Except String String :=
  ((generateCronosHeaderObj env params).1,
   (generateCronosHeaderObj env params).2.map encodePaymentHeader)

/-! ## The `Facilitator` client class (`client/index.ts`) -/

/-- The fixed base URL of the facilitator backend. -/
def FACILITATOR_BASE_URL : String := "https://facilitator.cronoslabs.org"

/-- `ClientConfig` plus the required `network` the constructor takes;
`baseUrl` is declared but ignored by the SDK. -/
structure ClientConfig where
  baseUrl : Option String := none
  network : String
deriving Repr, DecidableEq

/-- The state of a constructed `Facilitator` instance. -/
structure Facilitator where
  baseUrl : String
  network : String
  defaultAsset : String
  rpcUrl : String
deriving Repr, DecidableEq

/-- The constructor: registry lookup fails closed; `baseUrl` is
initialized from the module constant, never from the config. -/
def Facilitator.make (config : ClientConfig) : Except String Facilitator :=
  match NETWORK_REGISTRY config.network with
  | none => .error ("Unsupported network: " ++ config.network)
  | some registryConfig =>
    .ok { baseUrl := FACILITATOR_BASE_URL, network := config.network,
          defaultAsset := registryConfig.asset,
          rpcUrl := registryConfig.rpcUrl }

/-- URL requested by `getSupported`. -/
def Facilitator.supportedUrl (f : Facilitator) : String :=
  f.baseUrl ++ "/v2/x402/supported"

/-- URL requested by `verifyPayment`. -/
def Facilitator.verifyUrl (f : Facilitator) : String :=
  f.baseUrl ++ "/v2/x402/verify"

/-- URL requested by `settlePayment`. -/
def Facilitator.settleUrl (f : Facilitator) : String :=
  f.baseUrl ++ "/v2/x402/settle"

/-! ## Lemmas: decimal digits and integer literals -/

/-- Rebuilding a string from its character data is the identity. -/
theorem mk_data (s : String) : String.mk s.data = s := rfl

/-- Consuming a literal off input that starts with it leaves the
rest. -/
theorem dropLit_append (pat rest : List Char) :
    dropLit pat (pat ++ rest) = some rest := by
  induction pat with
  | nil => rfl
  | cons p ps ih => simp [dropLit, ih]

/-- A digit run stops at a non-digit. -/
theorem parseDigits_stop (a : Nat) (rest : List Char)
    (h : headIsDigit rest = false) : parseDigits a rest = (a, rest) := by
  cases rest with
  | nil => rfl
  | cons c cs =>
    simp only [headIsDigit] at h
    simp [parseDigits, h]

/-- Code point of a digit character. -/
theorem digitChar_toNat (d : Nat) (h : d < 10) :
    (digitChar d).toNat = 48 + d := by
  interval_cases d <;> decide

/-- Digit characters pass the digit test. -/
theorem isDigitCh_digitChar (d : Nat) (h : d < 10) :
    isDigitCh (digitChar d) = true := by
  interval_cases d <;> decide

/-- The accumulator form appends to its accumulator, given enough
fuel. -/
theorem natToCharsAux_eq (n : Nat) :
    ∀ fuel acc, n < fuel → natToCharsAux fuel n acc = natToChars n ++ acc := by
  induction n using Nat.strong_induction_on with
  | _ n ih =>
    intro fuel acc hf
    obtain ⟨f, rfl⟩ : ∃ f, fuel = f + 1 := ⟨fuel - 1, by omega⟩
    by_cases h10 : n < 10
    · simp [natToChars, natToCharsAux, h10]
    · have hdiv : n / 10 < n := Nat.div_lt_self (by omega) (by omega)
      simp only [natToChars, natToCharsAux, h10, if_neg, not_false_iff,
        if_false]
      rw [ih (n / 10) hdiv f (digitChar (n % 10) :: acc) (by omega),
        ih (n / 10) hdiv n [digitChar (n % 10)] (by omega)]
      simp

/-- The usual recursive unfolding of the decimal representation. -/
theorem natToChars_eq (n : Nat) :
    natToChars n =
      if n < 10 then [digitChar n]
      else natToChars (n / 10) ++ [digitChar (n % 10)] := by
  by_cases h10 : n < 10
  · simp [natToChars, natToCharsAux, h10]
  · rw [if_neg h10]
    show natToCharsAux (n + 1) n [] = _
    have hdiv : n / 10 < n := Nat.div_lt_self (by omega) (by omega)
    simp only [natToCharsAux, h10, if_neg, not_false_iff, if_false]
    exact natToCharsAux_eq (n / 10) n [digitChar (n % 10)] hdiv

/-- The decimal representation is never empty. -/
theorem natToChars_ne_nil (n : Nat) : natToChars n ≠ [] := by
  rw [natToChars_eq]
  split <;> simp

/-- Every character of the decimal representation is a digit. -/
theorem natToChars_all_digits (n : Nat) :
    ∀ c ∈ natToChars n, isDigitCh c = true := by
  induction n using Nat.strong_induction_on with
  | _ n ih =>
    intro c hc
    rw [natToChars_eq] at hc
    split at hc
    · rename_i h10
      simp only [List.mem_singleton] at hc
      exact hc ▸ isDigitCh_digitChar n h10
    · rename_i h10
      rw [List.mem_append] at hc
      rcases hc with hc | hc
      · exact ih (n / 10) (Nat.div_lt_self (by omega) (by omega)) c hc
      · simp only [List.mem_singleton] at hc
        exact hc ▸ isDigitCh_digitChar (n % 10) (Nat.mod_lt n (by omega))

/-- The digit-run parser consumes a decimal representation entirely,
scaling the accumulator past it. -/
theorem parseDigits_natToChars (n : Nat) :
    ∀ a tail, parseDigits a (natToChars n ++ tail) =
      parseDigits (a * 10 ^ (natToChars n).length + n) tail := by
  induction n using Nat.strong_induction_on with
  | _ n ih =>
    intro a tail
    by_cases h10 : n < 10
    · rw [natToChars_eq]
      simp only [h10, if_pos]
      simp [parseDigits, isDigitCh_digitChar n h10, digitChar_toNat n h10]
    · rw [natToChars_eq]
      simp only [h10, if_neg, not_false_iff]
      rw [List.append_assoc, ih (n / 10) (Nat.div_lt_self (by omega) (by omega))]
      have h9 : n % 10 < 10 := Nat.mod_lt n (by omega)
      simp only [List.cons_append, List.nil_append, parseDigits,
        isDigitCh_digitChar (n % 10) h9, if_pos, digitChar_toNat (n % 10) h9,
        List.length_append, List.length_singleton]
      congr 1
      have hM : (10 : Nat) ^ ((natToChars (n / 10)).length + 1) =
          10 ^ (natToChars (n / 10)).length * 10 := by
        rw [Nat.pow_succ]
      rw [hM]
      have hmul : a * (10 ^ (natToChars (n / 10)).length * 10) =
          a * 10 ^ (natToChars (n / 10)).length * 10 := by ring
      rw [hmul]
      omega

/-- `parseNat` on a decimal representation followed by a non-digit
returns exactly the represented number. -/
theorem parseNat_canonical (n : Nat) (tail : List Char)
    (h : headIsDigit tail = false) :
    parseNat (natToChars n ++ tail) = some (n, tail) := by
  have hsplit := parseDigits_natToChars n 0 tail
  rw [parseDigits_stop _ _ h, Nat.zero_mul, Nat.zero_add] at hsplit
  cases hd : natToChars n with
  | nil => exact absurd hd (natToChars_ne_nil n)
  | cons c cs =>
    have hc : isDigitCh c = true :=
      natToChars_all_digits n c (hd ▸ List.mem_cons_self c cs)
    rw [hd] at hsplit
    simp only [List.cons_append, parseNat, hc, if_pos]
    rw [← List.cons_append, hsplit]

/-- The first character of a decimal representation is a digit, hence
not `'-'`. -/
theorem natToChars_head_ne_minus (n : Nat) (c : Char) (cs : List Char)
    (hd : natToChars n = c :: cs) : c ≠ '-' := by
  have hc : isDigitCh c = true :=
    natToChars_all_digits n c (hd ▸ List.mem_cons_self c cs)
  intro hcm
  rw [hcm] at hc
  exact absurd hc (by decide)

/-- `parseInt` on the decimal representation of an integer followed by
a non-digit returns exactly that integer. -/
theorem parseInt_canonical (i : Int) (tail : List Char)
    (h : headIsDigit tail = false) :
    parseInt (intToChars i ++ tail) = some (i, tail) := by
  unfold intToChars
  by_cases hneg : i < 0
  · rw [if_pos hneg, List.cons_append]
    simp only [parseInt, List.head?_cons, List.tail_cons, if_pos]
    rw [parseNat_canonical i.natAbs tail h]
    have habs : -((i.natAbs : Nat) : Int) = i := by omega
    simp only [Option.map_some', habs]
  · rw [if_neg hneg]
    cases hd : natToChars i.toNat with
    | nil => exact absurd hd (natToChars_ne_nil _)
    | cons c cs =>
      have hcm := natToChars_head_ne_minus i.toNat c cs hd
      rw [List.cons_append]
      have hhead : ¬ ((some c : Option Char) = some '-') := by
        simpa using hcm
      simp only [parseInt, List.head?_cons, List.tail_cons]
      rw [if_neg hhead, ← List.cons_append, ← hd,
        parseNat_canonical i.toNat tail h]
      have htoNat : ((i.toNat : Nat) : Int) = i := by omega
      simp only [Option.map_some', htoNat]

/-! ## Lemmas: JSON string escaping round-trips through the parser -/

/-- Hex digit characters pass the hex test. -/
theorem hexChar_isHex (d : Nat) (h : d < 16) : isHexCh (hexChar d) = true := by
  interval_cases d <;> decide

/-- Value of an emitted hex digit. -/
theorem hexVal_hexChar (d : Nat) (h : d < 16) : hexVal (hexChar d) = d := by
  interval_cases d <;> decide

/-- The string-literal parser undoes `JSON.stringify` escaping: reading
the escaped characters of `s` up to a closing quote recovers `s` and
the rest of the input. -/
theorem parseStrTail_escChars (s : List Char) :
    ∀ rest, parseStrTail (escChars s ++ '"' :: rest) = some (s, rest) := by
  induction s with
  | nil =>
    intro rest
    unfold parseStrTail
    simp [escChars]
  | cons c cs ih =>
    intro rest
    show parseStrTail ((escChar c ++ escChars cs) ++ '"' :: rest) = _
    rw [List.append_assoc]
    by_cases h1 : c = '"'
    · subst h1
      simp only [escChar, if_pos rfl, List.cons_append, List.nil_append]
      unfold parseStrTail
      simp [ih rest]
    · by_cases h2 : c = '\\'
      · subst h2
        simp only [escChar, if_pos rfl, if_neg h1, List.cons_append,
          List.nil_append]
        unfold parseStrTail
        simp [ih rest]
      · by_cases h3 : c.toNat = 8
        · have hc : Char.ofNat 8 = c := by rw [← h3, Char.ofNat_toNat]
          simp only [escChar, h1, h2, h3, if_neg, if_pos, if_false,
            List.cons_append, List.nil_append]
          unfold parseStrTail
          simp [ih rest]
          exact hc
        · by_cases h4 : c.toNat = 9
          · have hc : Char.ofNat 9 = c := by rw [← h4, Char.ofNat_toNat]
            simp only [escChar, h1, h2, h3, h4, if_neg, if_pos, if_false,
              List.cons_append, List.nil_append]
            unfold parseStrTail
            simp [ih rest]
            exact hc
          · by_cases h5 : c.toNat = 10
            · have hc : Char.ofNat 10 = c := by rw [← h5, Char.ofNat_toNat]
              simp only [escChar, h1, h2, h3, h4, h5, if_neg, if_pos, if_false,
                List.cons_append, List.nil_append]
              unfold parseStrTail
              simp [ih rest]
              exact hc
            · by_cases h6 : c.toNat = 12
              · have hc : Char.ofNat 12 = c := by rw [← h6, Char.ofNat_toNat]
                simp only [escChar, h1, h2, h3, h4, h5, h6, if_neg, if_pos,
                  if_false, List.cons_append, List.nil_append]
                unfold parseStrTail
                simp [ih rest]
                exact hc
              · by_cases h7 : c.toNat = 13
                · have hc : Char.ofNat 13 = c := by rw [← h7, Char.ofNat_toNat]
                  simp only [escChar, h1, h2, h3, h4, h5, h6, h7, if_neg,
                    if_pos, if_false, List.cons_append, List.nil_append]
                  unfold parseStrTail
                  simp [ih rest]
                  exact hc
                · by_cases h8 : c.toNat < 32
                  · have hhi : c.toNat / 16 < 16 := by omega
                    have hlo : c.toNat % 16 < 16 := by omega
                    have hval : hexVal '0' * 4096 + hexVal '0' * 256 +
                        hexVal (hexChar (c.toNat / 16)) * 16 +
                        hexVal (hexChar (c.toNat % 16)) = c.toNat := by
                      rw [hexVal_hexChar _ hhi, hexVal_hexChar _ hlo]
                      have h0 : hexVal '0' = 0 := by decide
                      rw [h0]
                      omega
                    have h0x : isHexCh '0' = true := by decide
                    simp only [escChar, h1, h2, h3, h4, h5, h6, h7, h8, if_neg,
                      if_pos, if_false, List.cons_append, List.nil_append]
                    unfold parseStrTail
                    simp [hexChar_isHex _ hhi, hexChar_isHex _ hlo, hval, h0x,
                      Char.ofNat_toNat, ih rest]
                  · simp only [escChar, h1, h2, h3, h4, h5, h6, h7, h8, if_neg,
                      if_pos, if_false, List.cons_append, List.nil_append]
                    unfold parseStrTail
                    simp [h1, h2, ih rest]

/-! ## Lemmas: UTF-8 round-trips -/

/-- Every Unicode scalar value is below `0x110000`. -/
theorem char_toNat_lt (c : Char) : c.toNat < 0x110000 := by
  have h := c.valid
  unfold UInt32.isValidChar Nat.isValidChar at h
  rcases h with h | ⟨_, h2⟩
  · exact Nat.lt_trans h (by norm_num)
  · exact h2

/-- UTF-8 emits bytes. -/
theorem utf8Bytes_lt (c : Char) : ∀ b ∈ utf8Bytes c, b < 256 := by
  have hv := char_toNat_lt c
  unfold utf8Bytes
  split_ifs with h1 h2 h3 <;> intro b hb <;>
    simp only [List.mem_cons, List.mem_singleton, List.not_mem_nil,
      or_false] at hb <;> omega

/-- UTF-8 encoding emits bytes. -/
theorem utf8Encode_lt (cs : List Char) : ∀ b ∈ utf8Encode cs, b < 256 := by
  induction cs with
  | nil => intro b hb; simp [utf8Encode] at hb
  | cons c cs ih =>
    intro b hb
    rw [show utf8Encode (c :: cs) = utf8Bytes c ++ utf8Encode cs from rfl,
      List.mem_append] at hb
    rcases hb with hb | hb
    · exact utf8Bytes_lt c b hb
    · exact ih b hb

/-- Decoding step on an ASCII byte. -/
theorem utf8DecodeOne_one (v : Nat) (h : v < 0x80) (rest : List Nat) :
    utf8DecodeOne (v :: rest) = some (v, rest) := by
  unfold utf8DecodeOne
  dsimp only []
  rw [if_pos h]

/-- Decoding step on a two-byte sequence. -/
theorem utf8DecodeOne_two (v : Nat) (h1 : 0x80 ≤ v) (h2 : v < 0x800)
    (rest : List Nat) :
    utf8DecodeOne ((0xC0 + v / 64) :: (0x80 + v % 64) :: rest) =
      some (v, rest) := by
  have hcont : isCont (0x80 + v % 64) = true := by
    simp only [isCont, Bool.and_eq_true, decide_eq_true_eq]
    omega
  have harith : (0xC0 + v / 64 - 0xC0) * 64 + (0x80 + v % 64 - 0x80) = v := by
    omega
  unfold utf8DecodeOne
  dsimp only []
  rw [if_neg (by omega), if_neg (by omega),
    if_pos (by omega : 0xC0 + v / 64 < 0xE0)]
  simp only [hcont, if_pos, harith]

/-- Decoding step on a three-byte sequence. -/
theorem utf8DecodeOne_three (v : Nat) (h1 : 0x800 ≤ v) (h2 : v < 0x10000)
    (rest : List Nat) :
    utf8DecodeOne ((0xE0 + v / 4096) :: (0x80 + v / 64 % 64) ::
        (0x80 + v % 64) :: rest) = some (v, rest) := by
  have hc1 : isCont (0x80 + v / 64 % 64) = true := by
    simp only [isCont, Bool.and_eq_true, decide_eq_true_eq]
    omega
  have hc2 : isCont (0x80 + v % 64) = true := by
    simp only [isCont, Bool.and_eq_true, decide_eq_true_eq]
    omega
  have harith : (0xE0 + v / 4096 - 0xE0) * 4096 +
      (0x80 + v / 64 % 64 - 0x80) * 64 + (0x80 + v % 64 - 0x80) = v := by
    omega
  unfold utf8DecodeOne
  dsimp only []
  rw [if_neg (by omega), if_neg (by omega), if_neg (by omega),
    if_pos (by omega : 0xE0 + v / 4096 < 0xF0)]
  simp only [hc1, hc2, Bool.and_self, if_pos, harith]

/-- Decoding step on a four-byte sequence. -/
theorem utf8DecodeOne_four (v : Nat) (h1 : 0x10000 ≤ v) (h2 : v < 0x110000)
    (rest : List Nat) :
    utf8DecodeOne ((0xF0 + v / 262144) :: (0x80 + v / 4096 % 64) ::
        (0x80 + v / 64 % 64) :: (0x80 + v % 64) :: rest) = some (v, rest) := by
  have hc1 : isCont (0x80 + v / 4096 % 64) = true := by
    simp only [isCont, Bool.and_eq_true, decide_eq_true_eq]
    omega
  have hc2 : isCont (0x80 + v / 64 % 64) = true := by
    simp only [isCont, Bool.and_eq_true, decide_eq_true_eq]
    omega
  have hc3 : isCont (0x80 + v % 64) = true := by
    simp only [isCont, Bool.and_eq_true, decide_eq_true_eq]
    omega
  have harith : (0xF0 + v / 262144 - 0xF0) * 262144 +
      (0x80 + v / 4096 % 64 - 0x80) * 4096 +
      (0x80 + v / 64 % 64 - 0x80) * 64 + (0x80 + v % 64 - 0x80) = v := by
    omega
  unfold utf8DecodeOne
  dsimp only []
  rw [if_neg (by omega), if_neg (by omega), if_neg (by omega),
    if_neg (by omega), if_pos (by omega : 0xF0 + v / 262144 < 0xF8)]
  simp only [hc1, hc2, hc3, Bool.and_self, if_pos, harith]

/-- One decoding step inverts the encoding of one character. -/
theorem utf8DecodeOne_utf8Bytes (c : Char) (rest : List Nat) :
    utf8DecodeOne (utf8Bytes c ++ rest) = some (c.toNat, rest) := by
  have hv := char_toNat_lt c
  unfold utf8Bytes
  by_cases h1 : c.toNat < 0x80
  · rw [if_pos h1]
    simp only [List.cons_append, List.nil_append]
    exact utf8DecodeOne_one c.toNat h1 rest
  · by_cases h2 : c.toNat < 0x800
    · rw [if_neg h1, if_pos h2]
      simp only [List.cons_append, List.nil_append]
      exact utf8DecodeOne_two c.toNat (by omega) h2 rest
    · by_cases h3 : c.toNat < 0x10000
      · rw [if_neg h1, if_neg h2, if_pos h3]
        simp only [List.cons_append, List.nil_append]
        exact utf8DecodeOne_three c.toNat (by omega) h3 rest
      · rw [if_neg h1, if_neg h2, if_neg h3]
        simp only [List.cons_append, List.nil_append]
        exact utf8DecodeOne_four c.toNat (by omega) hv rest

/-- A character encodes to at least one byte. -/
theorem utf8Bytes_length_pos (c : Char) : 1 ≤ (utf8Bytes c).length := by
  unfold utf8Bytes
  split_ifs <;> simp

/-- The fuelled decoder inverts the encoder whenever the fuel covers the
byte count. -/
theorem utf8DecodeLoop_utf8Encode (cs : List Char) :
    ∀ fuel, (utf8Encode cs).length ≤ fuel →
      utf8DecodeLoop fuel (utf8Encode cs) = some cs := by
  induction cs with
  | nil =>
    intro fuel _
    cases fuel <;> rfl
  | cons c cs ih =>
    intro fuel hf
    have hne : utf8Encode (c :: cs) = utf8Bytes c ++ utf8Encode cs := rfl
    have hlen : 1 + (utf8Encode cs).length ≤ fuel := by
      have h1 := utf8Bytes_length_pos c
      rw [hne, List.length_append] at hf
      omega
    obtain ⟨f, rfl⟩ : ∃ f, fuel = f + 1 := ⟨fuel - 1, by omega⟩
    have hone := utf8DecodeOne_utf8Bytes c (utf8Encode cs)
    rw [hne]
    cases hb : utf8Bytes c with
    | nil =>
      have := utf8Bytes_length_pos c
      rw [hb] at this
      simp at this
    | cons b bs =>
      rw [hb] at hone
      simp only [List.cons_append] at hone ⊢
      unfold utf8DecodeLoop
      rw [hone]
      dsimp only []
      rw [ih f (by omega)]
      simp [Char.ofNat_toNat]

/-- UTF-8 decoding inverts UTF-8 encoding. -/
theorem utf8Decode_utf8Encode (cs : List Char) :
    utf8Decode (utf8Encode cs) = some cs :=
  utf8DecodeLoop_utf8Encode cs (utf8Encode cs).length le_rfl

/-! ## Lemmas: Base64 round-trips -/

/-- The alphabet mapping inverts on all 64 values. -/
theorem b64Val_b64Char : ∀ n, n < 64 → b64Val (b64Char n) = some n := by
  decide

/-- No alphabet character is the padding character. -/
theorem b64Char_ne_pad : ∀ n, n < 64 → b64Char n ≠ '=' := by
  decide

/-- Base64 decoding inverts Base64 encoding on byte lists. -/
theorem b64Decode_b64Encode :
    ∀ bs : List Nat, (∀ b ∈ bs, b < 256) → b64Decode (b64Encode bs) = some bs
  | [] => fun _ => rfl
  | [a] => fun h => by
    have ha : a < 256 := h a (by simp)
    show b64Decode [b64Char (a / 4), b64Char (a % 4 * 16), '=', '='] = some [a]
    unfold b64Decode
    rw [b64Val_b64Char _ (by omega), b64Val_b64Char _ (by omega)]
    dsimp only []
    simp
    omega
  | [a, b] => fun h => by
    have ha : a < 256 := h a (by simp)
    have hb : b < 256 := h b (by simp)
    have hp2 : b64Char (b % 16 * 4) ≠ '=' := b64Char_ne_pad _ (by omega)
    show b64Decode [b64Char (a / 4), b64Char (a % 4 * 16 + b / 16),
      b64Char (b % 16 * 4), '='] = some [a, b]
    unfold b64Decode
    rw [b64Val_b64Char _ (by omega), b64Val_b64Char _ (by omega),
      b64Val_b64Char _ (by omega)]
    dsimp only []
    rw [if_neg hp2]
    simp
    constructor
    · omega
    · omega
  | a :: b :: c :: rest => fun h => by
    have ha : a < 256 := h a (by simp)
    have hb : b < 256 := h b (by simp)
    have hc : c < 256 := h c (by simp)
    have ih := b64Decode_b64Encode rest
      (fun x hx => h x (by simp [hx]))
    have hp2 : b64Char (b % 16 * 4 + c / 64) ≠ '=' :=
      b64Char_ne_pad _ (by omega)
    have hp3 : b64Char (c % 64) ≠ '=' := b64Char_ne_pad _ (by omega)
    show b64Decode (b64Char (a / 4) :: b64Char (a % 4 * 16 + b / 16) ::
      b64Char (b % 16 * 4 + c / 64) :: b64Char (c % 64) ::
      b64Encode rest) = some (a :: b :: c :: rest)
    unfold b64Decode
    rw [b64Val_b64Char _ (by omega), b64Val_b64Char _ (by omega),
      b64Val_b64Char _ (by omega), b64Val_b64Char _ (by omega)]
    dsimp only []
    rw [if_neg hp2, if_neg hp3, ih]
    have h1 : a / 4 * 4 + (a % 4 * 16 + b / 16) / 16 = a := by omega
    have h2 : (a % 4 * 16 + b / 16) % 16 * 16 +
      (b % 16 * 4 + c / 64) / 4 = b := by omega
    have h3 : (b % 16 * 4 + c / 64) % 4 * 64 + c % 64 = c := by omega
    simp [h1, h2, h3]

/-! ## Lemmas: the header codec round-trips -/

/-- Characters of a freshly built string. -/
theorem data_mk (l : List Char) : (String.mk l).data = l := rfl

/-- Decoding recovers exactly the JSON text the encoder serialized. -/
theorem decodePaymentHeader_encodePaymentHeader (h : Eip3009PaymentHeader) :
    decodePaymentHeader (encodePaymentHeader h) = some (headerJson h) := by
  unfold decodePaymentHeader encodePaymentHeader
  rw [data_mk, b64Decode_b64Encode _ (utf8Encode_lt _)]
  simp only [Option.some_bind]
  rw [utf8Decode_utf8Encode]
  simp only [Option.map_some', mk_data]

/-- Characters of an escaped string. -/
theorem escString_data (s : String) : (escString s).data = escChars s.data := rfl

/-- Characters of a printed integer. -/
theorem intRepr_data (i : Int) : (intRepr i).data = intToChars i := rfl

/-- A key pattern followed by an escaped string literal parses to that
string. -/
theorem parseKeyStr_canonical (pat : String) (s : String) (rest : List Char) :
    parseKeyStr pat (pat.data ++ (escChars s.data ++ '"' :: rest)) =
      some (s.data, rest) := by
  unfold parseKeyStr
  rw [dropLit_append]
  simp only [Option.some_bind]
  exact parseStrTail_escChars s.data rest

/-- A key pattern followed by a printed integer parses to that integer
when the input continues with a non-digit. -/
theorem parseKeyInt_canonical (pat : String) (i : Int) (rest : List Char)
    (h : headIsDigit rest = false) :
    parseKeyInt pat (pat.data ++ (intToChars i ++ rest)) = some (i, rest) := by
  unfold parseKeyInt
  rw [dropLit_append]
  simp only [Option.some_bind]
  exact parseInt_canonical i rest h

/-- Step: the `from` key and its string value. -/
theorem stepFrom (s : String) (k : List Char) :
    parseKeyStr "\x7b\"from\":\"" ('\x7b' :: '"' :: 'f' :: 'r' :: 'o' :: 'm' ::
      '"' :: ':' :: '"' :: (escChars s.data ++ '"' :: k)) = some (s.data, k) :=
  parseKeyStr_canonical "\x7b\"from\":\"" s k

/-- Step: the `to` key and its string value. -/
theorem stepTo (s : String) (k : List Char) :
    parseKeyStr ",\"to\":\"" (',' :: '"' :: 't' :: 'o' :: '"' :: ':' :: '"' ::
      (escChars s.data ++ '"' :: k)) = some (s.data, k) :=
  parseKeyStr_canonical ",\"to\":\"" s k

/-- Step: the `value` key and its string value. -/
theorem stepValue (s : String) (k : List Char) :
    parseKeyStr ",\"value\":\"" (',' :: '"' :: 'v' :: 'a' :: 'l' :: 'u' ::
      'e' :: '"' :: ':' :: '"' :: (escChars s.data ++ '"' :: k)) =
      some (s.data, k) :=
  parseKeyStr_canonical ",\"value\":\"" s k

/-- Step: the `validAfter` key and its integer value. -/
theorem stepValidAfter (i : Int) (k : List Char) :
    parseKeyInt ",\"validAfter\":" (',' :: '"' :: 'v' :: 'a' :: 'l' :: 'i' ::
      'd' :: 'A' :: 'f' :: 't' :: 'e' :: 'r' :: '"' :: ':' ::
      (intToChars i ++ ',' :: k)) = some (i, ',' :: k) :=
  parseKeyInt_canonical ",\"validAfter\":" i (',' :: k) rfl

/-- Step: the `validBefore` key and its integer value. -/
theorem stepValidBefore (i : Int) (k : List Char) :
    parseKeyInt ",\"validBefore\":" (',' :: '"' :: 'v' :: 'a' :: 'l' :: 'i' ::
      'd' :: 'B' :: 'e' :: 'f' :: 'o' :: 'r' :: 'e' :: '"' :: ':' ::
      (intToChars i ++ ',' :: k)) = some (i, ',' :: k) :=
  parseKeyInt_canonical ",\"validBefore\":" i (',' :: k) rfl

/-- Step: the `nonce` key and its string value. -/
theorem stepNonce (s : String) (k : List Char) :
    parseKeyStr ",\"nonce\":\"" (',' :: '"' :: 'n' :: 'o' :: 'n' :: 'c' ::
      'e' :: '"' :: ':' :: '"' :: (escChars s.data ++ '"' :: k)) =
      some (s.data, k) :=
  parseKeyStr_canonical ",\"nonce\":\"" s k

/-- Step: the `signature` key and its string value. -/
theorem stepSignature (s : String) (k : List Char) :
    parseKeyStr ",\"signature\":\"" (',' :: '"' :: 's' :: 'i' :: 'g' :: 'n' ::
      'a' :: 't' :: 'u' :: 'r' :: 'e' :: '"' :: ':' :: '"' ::
      (escChars s.data ++ '"' :: k)) = some (s.data, k) :=
  parseKeyStr_canonical ",\"signature\":\"" s k

/-- Step: the `asset` key and its string value. -/
theorem stepAsset (s : String) (k : List Char) :
    parseKeyStr ",\"asset\":\"" (',' :: '"' :: 'a' :: 's' :: 's' :: 'e' ::
      't' :: '"' :: ':' :: '"' :: (escChars s.data ++ '"' :: k)) =
      some (s.data, k) :=
  parseKeyStr_canonical ",\"asset\":\"" s k

/-- Parsing the canonical payload serialization recovers the payload
and stops at the closing brace of the payload object. -/
theorem parsePayloadTail_canonical (p : Eip3009Payload) (rest : List Char) :
    parsePayloadTail ((payloadJson p).data ++ rest) =
      some (p, '\x7d' :: rest) := by
  unfold parsePayloadTail payloadJson
  simp only [String.data_append, escString_data, intRepr_data,
    List.append_assoc, List.cons_append, List.nil_append]
  simp only [stepFrom, Option.some_bind, stepTo, stepValue, stepValidAfter,
    stepValidBefore, stepNonce, stepSignature, stepAsset, mk_data]

/-- Step: the `x402Version` key and its integer value. -/
theorem stepVersion (i : Int) (k : List Char) :
    parseKeyInt "\x7b\"x402Version\":" ('\x7b' :: '"' :: 'x' :: '4' :: '0' ::
      '2' :: 'V' :: 'e' :: 'r' :: 's' :: 'i' :: 'o' :: 'n' :: '"' :: ':' ::
      (intToChars i ++ ',' :: k)) = some (i, ',' :: k) :=
  parseKeyInt_canonical "\x7b\"x402Version\":" i (',' :: k) rfl

/-- Step: the `scheme` key and its string value. -/
theorem stepScheme (s : String) (k : List Char) :
    parseKeyStr ",\"scheme\":\"" (',' :: '"' :: 's' :: 'c' :: 'h' :: 'e' ::
      'm' :: 'e' :: '"' :: ':' :: '"' :: (escChars s.data ++ '"' :: k)) =
      some (s.data, k) :=
  parseKeyStr_canonical ",\"scheme\":\"" s k

/-- Step: the `network` key and its string value. -/
theorem stepNetwork (s : String) (k : List Char) :
    parseKeyStr ",\"network\":\"" (',' :: '"' :: 'n' :: 'e' :: 't' :: 'w' ::
      'o' :: 'r' :: 'k' :: '"' :: ':' :: '"' :: (escChars s.data ++ '"' :: k)) =
      some (s.data, k) :=
  parseKeyStr_canonical ",\"network\":\"" s k

/-- Step: the `payload` key literal. -/
theorem stepPayloadKey (k : List Char) :
    dropLit [',', '"', 'p', 'a', 'y', 'l', 'o', 'a', 'd', '"', ':']
      (',' :: '"' :: 'p' :: 'a' :: 'y' :: 'l' :: 'o' :: 'a' :: 'd' :: '"' ::
        ':' :: k) = some k :=
  dropLit_append [',', '"', 'p', 'a', 'y', 'l', 'o', 'a', 'd', '"', ':'] k

/-- Step: the two closing braces of the envelope. -/
theorem stepEnd : dropLit ['\x7d', '\x7d'] ['\x7d', '\x7d'] = some [] := rfl

/-- Re-parsing the canonical header serialization recovers the header
exactly. -/
theorem parsePaymentHeader_headerJson (h : Eip3009PaymentHeader) :
    parsePaymentHeader (headerJson h) = some h := by
  unfold parsePaymentHeader headerJson
  simp only [String.data_append, escString_data, intRepr_data,
    List.append_assoc, List.cons_append, List.nil_append]
  simp only [stepVersion, Option.some_bind, stepScheme, stepNetwork,
    stepPayloadKey, parsePayloadTail_canonical, stepEnd, mk_data, if_true]

/-! ## Lemmas: `StringToBigInt` on canonical decimal strings -/

/-- Folding the digits of a decimal representation recovers the
number. -/
theorem digitsVal_natToChars (n : Nat) : digitsVal (natToChars n) = n := by
  induction n using Nat.strong_induction_on with
  | _ n ih =>
    by_cases h10 : n < 10
    · rw [natToChars_eq]
      simp only [h10, if_pos]
      simp [digitsVal, radixVal, digitChar_toNat n h10]
    · rw [natToChars_eq]
      simp only [h10, if_neg, not_false_iff]
      have h9 : n % 10 < 10 := Nat.mod_lt n (by omega)
      simp only [digitsVal, radixVal, List.foldl_append, List.foldl_cons,
        List.foldl_nil] at ih ⊢
      rw [ih (n / 10) (Nat.div_lt_self (by omega) (by omega)),
        digitChar_toNat (n % 10) h9]
      omega

/-- Digits are not ECMAScript whitespace. -/
theorem isWS_of_digit (c : Char) (h : isDigitCh c = true) : isWS c = false := by
  simp only [isDigitCh, Bool.and_eq_true, decide_eq_true_eq] at h
  simp only [isWS, Bool.or_eq_false_iff, Bool.and_eq_false_iff,
    decide_eq_false_iff_not]
  omega

/-- `dropWhile` is the identity when no element satisfies the
predicate. -/
theorem dropWhile_all_false (p : Char → Bool) (l : List Char)
    (h : ∀ c ∈ l, p c = false) : l.dropWhile p = l := by
  cases l with
  | nil => rfl
  | cons c cs =>
    rw [List.dropWhile_cons, if_neg]
    rw [h c (List.mem_cons_self c cs)]
    simp

/-- Trimming does nothing to an all-digits string. -/
theorem jsTrim_digits (cs : List Char) (h : ∀ c ∈ cs, isDigitCh c = true) :
    jsTrim cs = cs := by
  unfold jsTrim
  rw [dropWhile_all_false isWS cs (fun c hc => isWS_of_digit c (h c hc))]
  rw [dropWhile_all_false isWS cs.reverse
    (fun c hc => isWS_of_digit c (h c (List.mem_reverse.mp hc)))]
  exact List.reverse_reverse cs

/-- `decimalCase` on a decimal representation returns the number. -/
theorem decimalCase_natToChars (n : Nat) :
    decimalCase (natToChars n) = some ((n : Nat) : Int) := by
  unfold decimalCase
  rw [if_pos, digitsVal_natToChars]
  rw [List.all_eq_true]
  exact natToChars_all_digits n

/-- `BigInt` on the canonical decimal representation of a natural
number parses it exactly, at arbitrary precision. -/
theorem stringToBigInt_natRepr (n : Nat) :
    stringToBigInt (natRepr n) = some ((n : Nat) : Int) := by
  unfold stringToBigInt
  rw [show (natRepr n).data = natToChars n from rfl,
    jsTrim_digits (natToChars n) (natToChars_all_digits n)]
  have hall := natToChars_all_digits n
  split
  · rename_i heq
    exact absurd heq (natToChars_ne_nil n)
  · rename_i x rest heq
    have hx : isDigitCh x = true := by
      apply hall
      rw [heq]
      simp
    simp only [isDigitCh, Bool.and_eq_true, decide_eq_true_eq] at hx
    rw [if_neg, if_neg, if_neg]
    · rw [← heq]
      exact decimalCase_natToChars n
    · simp only [Bool.or_eq_true, decide_eq_true_eq, not_or]
      constructor <;> intro hcon <;> rw [hcon] at hx <;> revert hx <;> decide
    · simp only [Bool.or_eq_true, decide_eq_true_eq, not_or]
      constructor <;> intro hcon <;> rw [hcon] at hx <;> revert hx <;> decide
    · simp only [Bool.or_eq_true, decide_eq_true_eq, not_or]
      constructor <;> intro hcon <;> rw [hcon] at hx <;> revert hx <;> decide
  · rename_i rest heq
    have hx : isDigitCh '+' = true := by
      apply hall
      rw [heq]
      simp
    exact absurd hx (by decide)
  · rename_i rest heq
    have hx : isDigitCh '-' = true := by
      apply hall
      rw [heq]
      simp
    exact absurd hx (by decide)
  · exact decimalCase_natToChars n

/-! ## Lemmas: the guard helpers characterized by value shape -/

/-- A possibly-absent field passes `isBoolean` exactly when it is a
boolean. -/
theorem optApp_isBoolean_iff (o : Option JsVal) :
    optApp isBoolean o = true ↔ ∃ b, o = some (JsVal.bool b) := by
  cases o with
  | none => simp [optApp]
  | some v => cases v <;> simp [optApp, isBoolean]

/-- A possibly-absent field passes `isString` exactly when it is a
string. -/
theorem optApp_isString_iff (o : Option JsVal) :
    optApp isString o = true ↔ ∃ s, o = some (JsVal.str s) := by
  cases o with
  | none => simp [optApp]
  | some v => cases v <;> simp [optApp, isString]

/-- A possibly-absent field passes `isNull` exactly when it is
`null`. -/
theorem optApp_isNull_iff (o : Option JsVal) :
    optApp isNull o = true ↔ o = some JsVal.null := by
  cases o with
  | none => simp [optApp]
  | some v => cases v <;> simp [optApp, isNull]

/-- A possibly-absent field passes the event check exactly when it is
one of the two event literals. -/
theorem optApp_isEvent_iff (o : Option JsVal) :
    optApp isX402EventType o = true ↔
      o = some (JsVal.str "payment.settled") ∨
      o = some (JsVal.str "payment.failed") := by
  cases o with
  | none => simp [optApp]
  | some v => cases v <;> simp [optApp, isX402EventType]

/-! ## Lemmas: reducing the header builder under resolved capabilities -/

/-- With a known network, a resolvable signer address and a nonempty
token address, the builder is decided by the `BigInt` conversion of
`value` alone. -/
theorem generateCronosHeaderObj_reduce (env : SignerEnv)
    (params : HeaderParams) (config : NetworkConfig) (a : String)
    (hreg : NETWORK_REGISTRY params.network = some config)
    (haddr : env.signerAddress = some a) (hne : a ≠ "")
    (htok : params.asset.getD config.asset ≠ "") :
    generateCronosHeaderObj env params =
      match stringToBigInt params.value with
      | none =>
        ([HdrEvent.chainIdCall, HdrEvent.resolveAddressCall],
         .error ("Cannot convert " ++ params.value ++ " to a BigInt"))
      | some i =>
        ([HdrEvent.chainIdCall, HdrEvent.resolveAddressCall,
          HdrEvent.signCall],
         .ok (buildEip3009Header
           { fromAddress := a, toAddress := params.toAddress,
             value := intRepr i, validAfter := params.validAfter.getD 0,
             validBefore := params.validBefore.getD (env.now + 3600),
             nonce := env.nonce, signature := env.signature,
             asset := params.asset.getD config.asset } params.network)) := by
  unfold generateCronosHeaderObj
  rw [hreg]
  dsimp only []
  rw [haddr]
  simp only [Option.getD_some]
  rw [if_neg hne, if_neg htok]

/-- Every run of the builder ends in one of three states: an immediate
unknown-network failure with no external call, a failure after the
chain-id and address calls but before signing, or success after all
three external calls. -/
theorem generateCronosHeaderObj_cases (env : SignerEnv)
    (params : HeaderParams) :
    (generateCronosHeaderObj env params =
        ([], .error ("Unsupported network: " ++ params.network)) ∧
      NETWORK_REGISTRY params.network = none) ∨
    ((generateCronosHeaderObj env params).1 =
        [HdrEvent.chainIdCall, HdrEvent.resolveAddressCall] ∧
      NETWORK_REGISTRY params.network ≠ none ∧
      ∃ e, (generateCronosHeaderObj env params).2 = .error e) ∨
    ((generateCronosHeaderObj env params).1 =
        [HdrEvent.chainIdCall, HdrEvent.resolveAddressCall,
         HdrEvent.signCall] ∧
      NETWORK_REGISTRY params.network ≠ none ∧
      ∃ h, (generateCronosHeaderObj env params).2 = .ok h) := by
  unfold generateCronosHeaderObj
  cases hreg : NETWORK_REGISTRY params.network with
  | none => exact Or.inl ⟨rfl, rfl⟩
  | some config =>
    dsimp only []
    by_cases hfrom : env.signerAddress.getD "" = ""
    · rw [if_pos hfrom]
      exact Or.inr (Or.inl ⟨rfl, by simp [hreg], _, rfl⟩)
    · rw [if_neg hfrom]
      by_cases htok : params.asset.getD config.asset = ""
      · rw [if_pos htok]
        exact Or.inr (Or.inl ⟨rfl, by simp [hreg], _, rfl⟩)
      · rw [if_neg htok]
        cases hbig : stringToBigInt params.value with
        | none => exact Or.inr (Or.inl ⟨rfl, by simp [hreg], _, rfl⟩)
        | some i => exact Or.inr (Or.inr ⟨rfl, by simp [hreg], _, rfl⟩)

/-! ## The claims -/

/-- C1 (counterexample): the repository's legacy API module returns a
2xx-status parsed body to the caller without running any schema guard —
here `verifyPayment` returns a body that `assertX402VerifyResponse`
rejects, so the claim that every 2xx body is returned only after its
guard accepts it is false of that module's operations. -/
theorem claim_C1_counterexample :
    ApiUnguarded.verifyPayment
        { status := 200, body := .json (JsVal.obj [("foo", JsVal.num 1)]) } =
      .ok (JsVal.obj [("foo", JsVal.num 1)]) ∧
    assertX402VerifyResponse (JsVal.obj [("foo", JsVal.num 1)]) =
      .error "X402VerifyResponse.isValid: not boolean" :=
  ⟨rfl, rfl⟩

/-- C1 (amended): in the guard-calling variant of the API module, each
of `getSupported`, `verifyPayment` and `settlePayment` returns a value
only for a 2xx response, only after the corresponding schema guard
accepted the parsed body, and the value returned is exactly that body;
the legacy variant (see the counterexample) performs no validation. -/
theorem claim_C1 :
    (∀ r v, ApiGuarded.getSupported r = .ok v →
      resOk r = true ∧ assertX402SupportedResponse v = .ok () ∧
        v = readJsonOrRaw r) ∧
    (∀ r v, ApiGuarded.verifyPayment r = .ok v →
      resOk r = true ∧ assertX402VerifyResponse v = .ok () ∧
        v = readJsonOrRaw r) ∧
    (∀ r v, ApiGuarded.settlePayment r = .ok v →
      resOk r = true ∧ assertX402SettleResponse v = .ok () ∧
        v = readJsonOrRaw r) := by
  refine ⟨?_, ?_, ?_⟩ <;> intro r v hok
  · unfold ApiGuarded.getSupported at hok
    by_cases hr : resOk r
    · simp only [hr, Bool.not_true] at hok
      cases hassert : assertX402SupportedResponse (readJsonOrRaw r) with
      | error e => rw [hassert] at hok; simp [Except.map] at hok
      | ok u =>
        cases u
        rw [hassert] at hok
        simp only [Except.map, if_false] at hok
        cases hok
        exact ⟨hr, hassert, rfl⟩
    · have hr' : resOk r = false := by simpa using hr
      simp [hr'] at hok
  · unfold ApiGuarded.verifyPayment at hok
    by_cases hr : resOk r
    · simp only [hr, Bool.not_true] at hok
      cases hassert : assertX402VerifyResponse (readJsonOrRaw r) with
      | error e => rw [hassert] at hok; simp [Except.map] at hok
      | ok u =>
        cases u
        rw [hassert] at hok
        simp only [Except.map, if_false] at hok
        cases hok
        exact ⟨hr, hassert, rfl⟩
    · have hr' : resOk r = false := by simpa using hr
      simp [hr'] at hok
  · unfold ApiGuarded.settlePayment at hok
    by_cases hr : resOk r
    · simp only [hr, Bool.not_true] at hok
      cases hassert : assertX402SettleResponse (readJsonOrRaw r) with
      | error e => rw [hassert] at hok; simp [Except.map] at hok
      | ok u =>
        cases u
        rw [hassert] at hok
        simp only [Except.map, if_false] at hok
        cases hok
        exact ⟨hr, hassert, rfl⟩
    · have hr' : resOk r = false := by simpa using hr
      simp [hr'] at hok

/-- C2 (counterexample): the header builder does not reject a negative
integer string — `BigInt("-1")` succeeds, no error is raised, and the
assembled payload's `value` field is `"-1"`. -/
theorem claim_C2_counterexample :
    (generateCronosHeaderObj
        { chainId := 338, signerAddress := some "0xSender",
          now := 1700000000, nonce := "0xnonce", signature := "0xsig" }
        { network := "cronos-testnet", toAddress := "0xReceiver",
          value := "-1" }).2 =
      .ok (buildEip3009Header
        { fromAddress := "0xSender", toAddress := "0xReceiver",
          value := "-1", validAfter := 0, validBefore := 1700003600,
          nonce := "0xnonce", signature := "0xsig",
          asset := "0xc01efAaF7C5C61bEbFAeb358E1161b537b8bC0e0" }
        "cronos-testnet") :=
  rfl

/-- C2 (amended): with network, signer address and asset resolved, the
builder fails (with the `BigInt` conversion error) exactly when `value`
is not a valid ECMAScript `BigInt` string literal — which admits
negative, signed, hex/octal/binary, empty and whitespace-padded
strings, not only non-negative decimal literals — and on every accepted
value the payload's `value` field is the decimal stringification of the
parsed integer. -/
theorem claim_C2 (env : SignerEnv) (params : HeaderParams)
    (config : NetworkConfig) (a : String)
    (hreg : NETWORK_REGISTRY params.network = some config)
    (haddr : env.signerAddress = some a) (hne : a ≠ "")
    (htok : params.asset.getD config.asset ≠ "") :
    (stringToBigInt params.value = none →
      (generateCronosHeaderObj env params).2 =
        .error ("Cannot convert " ++ params.value ++ " to a BigInt")) ∧
    (∀ i, stringToBigInt params.value = some i →
      (generateCronosHeaderObj env params).2 =
        .ok (buildEip3009Header
          { fromAddress := a, toAddress := params.toAddress,
            value := intRepr i, validAfter := params.validAfter.getD 0,
            validBefore := params.validBefore.getD (env.now + 3600),
            nonce := env.nonce, signature := env.signature,
            asset := params.asset.getD config.asset } params.network)) := by
  rw [generateCronosHeaderObj_reduce env params config a hreg haddr hne htok]
  constructor
  · intro hnone
    rw [hnone]
  · intro i hi
    rw [hi]

/-- C2 (witness): at a concrete non-`BigInt` value string the builder
raises the conversion error. -/
theorem claim_C2_witness :
    (generateCronosHeaderObj
        { chainId := 338, signerAddress := some "0xSender",
          now := 1700000000, nonce := "0xnonce", signature := "0xsig" }
        { network := "cronos-testnet", toAddress := "0xReceiver",
          value := "1.5" }).2 =
      .error ("Cannot convert " ++ "1.5" ++ " to a BigInt") :=
  (claim_C2
    { chainId := 338, signerAddress := some "0xSender",
      now := 1700000000, nonce := "0xnonce", signature := "0xsig" }
    { network := "cronos-testnet", toAddress := "0xReceiver",
      value := "1.5" }
    { asset := "0xc01efAaF7C5C61bEbFAeb358E1161b537b8bC0e0",
      rpcUrl := "https://evm-t3.cronos.org" }
    "0xSender" rfl rfl (by decide) (by decide)).1 rfl

/-- C3 (counterexample): an object with boolean `isValid` and no
`invalidReason` field at all is rejected by `assertX402VerifyResponse`
(the absent field fails the `isString || isNull` test), so the claim
that absence is accepted is false. -/
theorem claim_C3_counterexample :
    assertX402VerifyResponse (JsVal.obj [("isValid", JsVal.bool true)]) =
      .error "X402VerifyResponse.invalidReason: not string|null" :=
  rfl

/-- C3 (amended): `assertX402VerifyResponse` accepts exactly the
records with a boolean `isValid` whose `invalidReason` is a string or
`null` — in particular it rejects a missing or non-boolean `isValid`, a
numeric `invalidReason`, and (contrary to the claim) an absent
`invalidReason`. -/
theorem claim_C3 (v : JsVal) :
    assertX402VerifyResponse v = .ok () ↔
      ∃ fields, v = JsVal.obj fields ∧
        (∃ b, jsGet fields "isValid" = some (JsVal.bool b)) ∧
        (jsGet fields "invalidReason" = some JsVal.null ∨
          ∃ s, jsGet fields "invalidReason" = some (JsVal.str s)) := by
  cases v with
  | obj fields =>
    unfold assertX402VerifyResponse
    dsimp only []
    constructor
    · intro hok
      split_ifs at hok with h1 h2
      refine ⟨fields, rfl, ?_, ?_⟩
      · rw [← optApp_isBoolean_iff]
        simpa using h1
      · by_cases hs : optApp isString (jsGet fields "invalidReason") = true
        · right
          exact (optApp_isString_iff _).mp hs
        · have h2'' := h2
          simp only [Bool.not_eq_true', Bool.or_eq_false_iff] at h2''
          have hA : optApp isString (jsGet fields "invalidReason") = false := by
            simpa using hs
          have hB : optApp isNull (jsGet fields "invalidReason") = true := by
            by_contra hB
            exact h2'' ⟨hA, by simpa using hB⟩
          left
          exact (optApp_isNull_iff _).mp hB
    · rintro ⟨fields', heq, ⟨b, hb⟩, hir⟩
      injection heq with heq'
      subst heq'
      rw [hb]
      rcases hir with hir | ⟨s, hir⟩ <;>
        simp [hir, optApp, isBoolean, isString, isNull]
  | null => simp [assertX402VerifyResponse]
  | bool b => simp [assertX402VerifyResponse]
  | num n => simp [assertX402VerifyResponse]
  | str s => simp [assertX402VerifyResponse]
  | arr elems => simp [assertX402VerifyResponse]

/-- C4 (counterexample): `assertX402SupportedResponse` accepts a kind
whose `scheme` is the string `"bogus"` — the `scheme` field is checked
only to be a string, not against a closed set of literals, so the claim
that every enum-typed guard field gets an exact-literal check is
false. -/
theorem claim_C4_counterexample :
    assertX402SupportedResponse (JsVal.obj [("kinds", JsVal.arr
      [JsVal.obj [("x402Version", JsVal.num 1),
        ("scheme", JsVal.str "bogus"),
        ("network", JsVal.str "cronos-testnet")]])]) = .ok () :=
  rfl

/-- C4 (amended): the settle guard does hard-check `event` against the
closed set `{"payment.settled", "payment.failed"}` and accepts `txHash`
absent when `event` is `"payment.failed"`, but the supported-response
guard checks each kind's `scheme` (and `network`) only with
`isString`, accepting any string whatsoever. -/
theorem claim_C4 :
    (∀ fields, assertX402SettleResponse (JsVal.obj fields) = .ok () →
      jsGet fields "event" = some (JsVal.str "payment.settled") ∨
      jsGet fields "event" = some (JsVal.str "payment.failed")) ∧
    assertX402SettleResponse (JsVal.obj [("x402Version", JsVal.num 1),
      ("event", JsVal.str "payment.failed"),
      ("network", JsVal.str "cronos-testnet"),
      ("timestamp", JsVal.str "2025-01-01T00:00:00Z")]) = .ok () ∧
    (∀ ver s net, assertX402SupportedResponse (JsVal.obj [("kinds",
      JsVal.arr [JsVal.obj [("x402Version", JsVal.num ver),
        ("scheme", JsVal.str s), ("network", JsVal.str net)]])]) =
      .ok ()) := by
  refine ⟨?_, rfl, ?_⟩
  · intro fields hok
    by_cases hev : optApp isX402EventType (jsGet fields "event") = true
    · exact (optApp_isEvent_iff _).mp hev
    · exfalso
      unfold assertX402SettleResponse at hok
      dsimp only [] at hok
      have hev' : optApp isX402EventType (jsGet fields "event") = false := by
        simpa using hev
      by_cases h1 : (!optApp isNumber (jsGet fields "x402Version")) = true
      · rw [if_pos h1] at hok
        exact Except.noConfusion hok
      · rw [if_neg h1, if_pos (by simp [hev'])] at hok
        exact Except.noConfusion hok
  · intro ver s net
    rfl

/-- C4 (witness): the exact-literal event conclusion at a concrete
accepted settle response. -/
theorem claim_C4_witness :
    jsGet [("x402Version", JsVal.num 1),
      ("event", JsVal.str "payment.settled"),
      ("txHash", JsVal.str "0x123"),
      ("network", JsVal.str "cronos-testnet"),
      ("timestamp", JsVal.str "2025-01-01T00:00:00Z")] "event" =
        some (JsVal.str "payment.settled") ∨
    jsGet [("x402Version", JsVal.num 1),
      ("event", JsVal.str "payment.settled"),
      ("txHash", JsVal.str "0x123"),
      ("network", JsVal.str "cronos-testnet"),
      ("timestamp", JsVal.str "2025-01-01T00:00:00Z")] "event" =
        some (JsVal.str "payment.failed") :=
  claim_C4.1 [("x402Version", JsVal.num 1),
    ("event", JsVal.str "payment.settled"),
    ("txHash", JsVal.str "0x123"),
    ("network", JsVal.str "cronos-testnet"),
    ("timestamp", JsVal.str "2025-01-01T00:00:00Z")] rfl

/-- C5: for every payment-header envelope, decoding the encoded header
recovers exactly the JSON text that `encodePaymentHeader` serialized,
and re-parsing that text yields a structurally identical header — every
field round-trips, including full-precision integer-as-string
values. -/
theorem claim_C5 (h : Eip3009PaymentHeader) :
    decodePaymentHeader (encodePaymentHeader h) = some (headerJson h) ∧
    parsePaymentHeader (headerJson h) = some h :=
  ⟨decodePaymentHeader_encodePaymentHeader h, parsePaymentHeader_headerJson h⟩

/-- C6 (counterexample): with a registered network and a resolvable
signer, an invalid amount (`BigInt("abc")` throws) is detected only
*after* the chain-id resolution call to the provider: the failing run's
trace already contains the network call. -/
theorem claim_C6_counterexample :
    generateCronosPaymentHeader
        { chainId := 338, signerAddress := some "0xSender",
          now := 1700000000, nonce := "0xnonce", signature := "0xsig" }
        { network := "cronos-testnet", toAddress := "0xReceiver",
          value := "abc" } =
      ([HdrEvent.chainIdCall, HdrEvent.resolveAddressCall],
       .error ("Cannot convert abc to a BigInt")) ∧
    HdrEvent.chainIdCall ∈
      [HdrEvent.chainIdCall, HdrEvent.resolveAddressCall] :=
  ⟨rfl, by decide⟩

/-- C6 (amended): only the unknown-network failure is detected before
any external call (its trace is empty); with a registered network each
of the three other failures — unresolvable signer address, missing
asset, invalid amount — is raised on exactly the trace
`[chainIdCall, resolveAddressCall]`, i.e. only *after* the chain-id
resolution call (and the address call) and always before the signing
call; and in every failing run the trace is empty precisely when the
network is unregistered, so no local-input failure ever precedes the
network call. -/
theorem claim_C6 :
    (∀ env params, NETWORK_REGISTRY params.network = none →
      generateCronosPaymentHeader env params =
        ([], .error ("Unsupported network: " ++ params.network))) ∧
    (∀ env params config, NETWORK_REGISTRY params.network = some config →
      env.signerAddress.getD "" = "" →
      generateCronosPaymentHeader env params =
        ([HdrEvent.chainIdCall, HdrEvent.resolveAddressCall],
         .error "Unable to resolve signer address")) ∧
    (∀ env params config, NETWORK_REGISTRY params.network = some config →
      env.signerAddress.getD "" ≠ "" →
      params.asset.getD config.asset = "" →
      generateCronosPaymentHeader env params =
        ([HdrEvent.chainIdCall, HdrEvent.resolveAddressCall],
         .error "Token asset address is required (no default configured)")) ∧
    (∀ env params config, NETWORK_REGISTRY params.network = some config →
      env.signerAddress.getD "" ≠ "" →
      params.asset.getD config.asset ≠ "" →
      stringToBigInt params.value = none →
      generateCronosPaymentHeader env params =
        ([HdrEvent.chainIdCall, HdrEvent.resolveAddressCall],
         .error ("Cannot convert " ++ params.value ++ " to a BigInt"))) ∧
    (∀ env params trace e,
      generateCronosPaymentHeader env params = (trace, .error e) →
      HdrEvent.signCall ∉ trace ∧
      (NETWORK_REGISTRY params.network = none → trace = []) ∧
      (NETWORK_REGISTRY params.network ≠ none →
        trace = [HdrEvent.chainIdCall, HdrEvent.resolveAddressCall])) := by
  refine ⟨?_, ?_, ?_, ?_, ?_⟩
  · intro env params hreg
    unfold generateCronosPaymentHeader generateCronosHeaderObj
    rw [hreg]
    rfl
  · intro env params config hreg hfrom
    unfold generateCronosPaymentHeader generateCronosHeaderObj
    rw [hreg]
    dsimp only []
    rw [if_pos hfrom]
    rfl
  · intro env params config hreg hfrom htok
    unfold generateCronosPaymentHeader generateCronosHeaderObj
    rw [hreg]
    dsimp only []
    rw [if_neg hfrom, if_pos htok]
    rfl
  · intro env params config hreg hfrom htok hbig
    unfold generateCronosPaymentHeader generateCronosHeaderObj
    rw [hreg]
    dsimp only []
    rw [if_neg hfrom, if_neg htok, hbig]
    rfl
  · intro env params trace e heq
    unfold generateCronosPaymentHeader at heq
    have htr : trace = (generateCronosHeaderObj env params).1 :=
      (congrArg Prod.fst heq).symm
    have herr : (generateCronosHeaderObj env params).2.map
        encodePaymentHeader = .error e := congrArg Prod.snd heq
    rcases generateCronosHeaderObj_cases env params with
      ⟨hcase, hnone⟩ | ⟨hcase, hsome, -⟩ | ⟨-, -, hdr, hok⟩
    · refine ⟨?_, fun _ => ?_, fun hne => absurd hnone hne⟩
      · rw [htr, hcase]
        simp
      · rw [htr, hcase]
    · refine ⟨?_, fun hn => absurd hn hsome, fun _ => htr.trans hcase⟩
      rw [htr, hcase]
      decide
    · rw [hok] at herr
      exact Except.noConfusion herr

/-- C7: for every registered network, `generatePaymentRequirements`
with all optional fields omitted yields exactly the documented
defaults with the network's registry asset, and caller-supplied values
override every default. -/
theorem claim_C7 (net : String) (config : NetworkConfig) (payTo : String)
    (hreg : NETWORK_REGISTRY net = some config) :
    generatePaymentRequirements { network := net, payTo := payTo } =
      .ok { scheme := "exact", network := net, payTo := payTo,
            asset := config.asset, description := "X402 payment request",
            mimeType := "application/json", maxAmountRequired := "1000",
            maxTimeoutSeconds := 300, resource := none, extra := none,
            outputSchema := none } ∧
    (∀ a d amt mt ts rs ex os,
      generatePaymentRequirements
          { network := net, payTo := payTo, asset := some a,
            description := some d, maxAmountRequired := some amt,
            mimeType := some mt, maxTimeoutSeconds := some ts,
            resource := some rs, extra := some ex,
            outputSchema := some os } =
        .ok { scheme := "exact", network := net, payTo := payTo,
              asset := a, description := d, mimeType := mt,
              maxAmountRequired := amt, maxTimeoutSeconds := ts,
              resource := some rs, extra := some ex,
              outputSchema := some os }) := by
  constructor
  · unfold generatePaymentRequirements
    rw [hreg]
    rfl
  · intro a d amt mt ts rs ex os
    unfold generatePaymentRequirements
    rw [hreg]
    rfl

/-- C7 (witness): the defaults at the concrete testnet registry
entry. -/
theorem claim_C7_witness :
    generatePaymentRequirements
        { network := "cronos-testnet", payTo := "0xReceiver" } =
      .ok { scheme := "exact", network := "cronos-testnet",
            payTo := "0xReceiver",
            asset := "0xc01efAaF7C5C61bEbFAeb358E1161b537b8bC0e0",
            description := "X402 payment request",
            mimeType := "application/json", maxAmountRequired := "1000",
            maxTimeoutSeconds := 300, resource := none, extra := none,
            outputSchema := none } :=
  (claim_C7 "cronos-testnet"
    { asset := "0xc01efAaF7C5C61bEbFAeb358E1161b537b8bC0e0",
      rpcUrl := "https://evm-t3.cronos.org" }
    "0xReceiver" rfl).1

/-- C8: for every network identifier missing from the registry, the
`Facilitator` constructor, `generatePaymentRequirements` and
`generateCronosPaymentHeader` all fail with the unsupported-network
error; the header builder does so before performing any external call
(empty trace), and none of the three falls back to a default
configuration. -/
theorem claim_C8 (net : String) (hreg : NETWORK_REGISTRY net = none) :
    (∀ base, Facilitator.make { baseUrl := base, network := net } =
      .error ("Unsupported network: " ++ net)) ∧
    (∀ opts : RequirementsOptions, opts.network = net →
      generatePaymentRequirements opts =
        .error ("Unsupported network: " ++ net)) ∧
    (∀ env params, params.network = net →
      generateCronosPaymentHeader env params =
        ([], .error ("Unsupported network: " ++ net))) := by
  refine ⟨?_, ?_, ?_⟩
  · intro base
    unfold Facilitator.make
    rw [show ({ baseUrl := base, network := net } :
      ClientConfig).network = net from rfl, hreg]
  · intro opts hnet
    unfold generatePaymentRequirements
    rw [hnet, hreg]
  · intro env params hnet
    unfold generateCronosPaymentHeader generateCronosHeaderObj
    rw [hnet, hreg]
    rfl

/-- C8 (witness): the concrete unregistered identifier `"ethereum"` is
refused by all three entry points. -/
theorem claim_C8_witness :
    Facilitator.make { network := "ethereum" } =
      .error ("Unsupported network: " ++ "ethereum") :=
  (claim_C8 "ethereum" rfl).1 none

/-- C9: for every natural number `n`, passing its decimal
representation as the amount makes the builder emit a payload whose
`value` field is exactly that decimal representation again — the
conversion goes through `BigInt` (modelled as `Int`, arbitrary
precision), so no precision is lost at any magnitude, including above
`2^53`. -/
theorem claim_C9 (env : SignerEnv) (params : HeaderParams)
    (config : NetworkConfig) (a : String) (n : Nat)
    (hreg : NETWORK_REGISTRY params.network = some config)
    (haddr : env.signerAddress = some a) (hne : a ≠ "")
    (htok : params.asset.getD config.asset ≠ "")
    (hval : params.value = natRepr n) :
    ((generateCronosHeaderObj env params).2).map
        (fun h => h.payload.value) = .ok (natRepr n) := by
  rw [generateCronosHeaderObj_reduce env params config a hreg haddr hne htok,
    hval, stringToBigInt_natRepr n]
  dsimp only []
  simp only [Except.map]
  unfold buildEip3009Header
  simp [intRepr, intToChars, natRepr]
  rw [if_neg (not_lt.mpr (Int.natCast_nonneg n))]

/-- C9 (witness): the amount `2^53 + 1 = 9007199254740993`, not
representable in a double, round-trips exactly. -/
theorem claim_C9_witness :
    ((generateCronosHeaderObj
        { chainId := 338, signerAddress := some "0xSender",
          now := 1700000000, nonce := "0xnonce", signature := "0xsig" }
        { network := "cronos-testnet", toAddress := "0xReceiver",
          value := "9007199254740993" }).2).map
      (fun h => h.payload.value) = .ok (natRepr 9007199254740993) :=
  claim_C9
    { chainId := 338, signerAddress := some "0xSender",
      now := 1700000000, nonce := "0xnonce", signature := "0xsig" }
    { network := "cronos-testnet", toAddress := "0xReceiver",
      value := "9007199254740993" }
    { asset := "0xc01efAaF7C5C61bEbFAeb358E1161b537b8bC0e0",
      rpcUrl := "https://evm-t3.cronos.org" }
    "0xSender" 9007199254740993 rfl rfl (by decide) (by decide) rfl

/-- C10: the optional `baseUrl` of the client configuration has no
influence: two configurations agreeing on the network produce exactly
equal `Facilitator` instances, and every instance's base URL — hence
the URL of every `getSupported`/`verifyPayment`/`settlePayment`
request — is the fixed constant `https://facilitator.cronoslabs.org`. -/
theorem claim_C10 :
    (∀ c1 c2 : ClientConfig, c1.network = c2.network →
      Facilitator.make c1 = Facilitator.make c2) ∧
    (∀ c f, Facilitator.make c = .ok f →
      f.baseUrl = "https://facilitator.cronoslabs.org" ∧
      f.supportedUrl =
        "https://facilitator.cronoslabs.org/v2/x402/supported" ∧
      f.verifyUrl = "https://facilitator.cronoslabs.org/v2/x402/verify" ∧
      f.settleUrl =
        "https://facilitator.cronoslabs.org/v2/x402/settle") := by
  constructor
  · intro c1 c2 hnet
    unfold Facilitator.make
    rw [hnet]
  · intro c f hok
    unfold Facilitator.make at hok
    cases hreg : NETWORK_REGISTRY c.network with
    | none =>
      rw [hreg] at hok
      exact Except.noConfusion hok
    | some config =>
      rw [hreg] at hok
      dsimp only [] at hok
      cases hok
      refine ⟨rfl, rfl, rfl, rfl⟩

/-- C10 (witness): the constructed testnet instance carries the fixed
base URL and request URLs. -/
theorem claim_C10_witness :
    ({ baseUrl := "https://facilitator.cronoslabs.org",
       network := "cronos-testnet",
       defaultAsset := "0xc01efAaF7C5C61bEbFAeb358E1161b537b8bC0e0",
       rpcUrl := "https://evm-t3.cronos.org" } : Facilitator).baseUrl =
        "https://facilitator.cronoslabs.org" ∧
    ({ baseUrl := "https://facilitator.cronoslabs.org",
       network := "cronos-testnet",
       defaultAsset := "0xc01efAaF7C5C61bEbFAeb358E1161b537b8bC0e0",
       rpcUrl := "https://evm-t3.cronos.org" } : Facilitator).supportedUrl =
        "https://facilitator.cronoslabs.org/v2/x402/supported" ∧
    ({ baseUrl := "https://facilitator.cronoslabs.org",
       network := "cronos-testnet",
       defaultAsset := "0xc01efAaF7C5C61bEbFAeb358E1161b537b8bC0e0",
       rpcUrl := "https://evm-t3.cronos.org" } : Facilitator).verifyUrl =
        "https://facilitator.cronoslabs.org/v2/x402/verify" ∧
    ({ baseUrl := "https://facilitator.cronoslabs.org",
       network := "cronos-testnet",
       defaultAsset := "0xc01efAaF7C5C61bEbFAeb358E1161b537b8bC0e0",
       rpcUrl := "https://evm-t3.cronos.org" } : Facilitator).settleUrl =
        "https://facilitator.cronoslabs.org/v2/x402/settle" :=
  claim_C10.2 { network := "cronos-testnet" }
    { baseUrl := "https://facilitator.cronoslabs.org",
      network := "cronos-testnet",
      defaultAsset := "0xc01efAaF7C5C61bEbFAeb358E1161b537b8bC0e0",
      rpcUrl := "https://evm-t3.cronos.org" } rfl

end X402
